import Mathlib

/-!
Verification development for the sambo habit tracker.

The repository holds two near-duplicate implementations of the same
single-user habit-tracking bot: `sambo_core.py` and `bot.py`.  Both write
tally marks into a spreadsheet treated as a grid of string cells.  This file
embeds the store-facing logic of both variants:

* the spreadsheet is a `Grid := List (List String)`; reading a missing cell
  yields `""` (gspread returns `None`, which the Python code treats as
  blank/falsy), writing pads the row, `row_values(1)` trims trailing blanks;
* Python string helpers (`strip`, `lower`, `split`, `int(...)`,
  `int(float(...))`, `str(n)`) are modelled on `List Char`; `int(float(s))`
  covers signed decimal digit/dot literals plus `inf`/`nan` (exponents,
  underscores and very large floats are outside the inputs exercised here);
* every backing-store primitive can be made to raise via a `Fault` record,
  so "the operation never touches the store" and "a raw exception
  propagates" are both expressible; errors carry the grid at raise time,
  matching Python exception semantics where prior writes persist.

Each recorder definition mirrors its Python source function statement by
statement, including the drift between the two files (validation order,
messages, which cells are written, try/except placement).
-/

/-! ### Python string primitives -/

/-- Python whitespace (the characters `str.strip`/`str.split` treat as space). -/
def isPySpace (c : Char) : Bool :=
  c == ' ' || c == '\t' || c == '\n' || c == '\r' || c == '\x0b' || c == '\x0c'

def lstripL (l : List Char) : List Char := l.dropWhile isPySpace

def rstripL (l : List Char) : List Char := (l.reverse.dropWhile isPySpace).reverse

def stripL (l : List Char) : List Char := rstripL (lstripL l)

/-- Python `str.strip()`. -/
def pyStrip (s : String) : String := ⟨stripL s.data⟩

/-- ASCII case folding, Python `str.lower()` on the inputs that occur here. -/
def lowerChar (c : Char) : Char :=
  if 'A' ≤ c ∧ c ≤ 'Z' then Char.ofNat (c.toNat + 32) else c

/-- Python `str.lower()`. -/
def pyLower (s : String) : String := ⟨s.data.map lowerChar⟩

/-- Helper for Python `str.split()`: accumulate the current word (reversed). -/
def splitWsAux : List Char → List Char → List (List Char)
  | [], acc => if acc.isEmpty then [] else [acc.reverse]
  | c :: cs, acc =>
    if isPySpace c then
      if acc.isEmpty then splitWsAux cs [] else acc.reverse :: splitWsAux cs []
    else splitWsAux cs (c :: acc)

/-- Python `str.split()` with no arguments: split on whitespace runs, no empty tokens. -/
def pySplit (s : String) : List String := (splitWsAux s.data []).map fun l => ⟨l⟩

/-! ### Decimal numbers: Python `str(n)`, `int(s)`, `int(float(s))` -/

def isDigitC (c : Char) : Bool := '0' ≤ c && c ≤ '9'

def digitVal (c : Char) : Nat := c.toNat - 48

def digitCharOf (n : Nat) : Char :=
  match n with
  | 0 => '0' | 1 => '1' | 2 => '2' | 3 => '3' | 4 => '4'
  | 5 => '5' | 6 => '6' | 7 => '7' | 8 => '8' | _ => '9'

/-- Value of a big-endian digit list. -/
def readDigits (l : List Char) : Nat := l.foldl (fun a c => a * 10 + digitVal c) 0

/-- Big-endian decimal digits of `n`, with fuel for structural recursion. -/
def printNatAux : Nat → Nat → List Char
  | 0, _ => []
  | fuel + 1, n =>
    if n < 10 then [digitCharOf n]
    else printNatAux fuel (n / 10) ++ [digitCharOf (n % 10)]

/-- Decimal rendering of a natural number, Python `str` on a non-negative int. -/
def printNat (n : Nat) : String := ⟨printNatAux (n + 1) n⟩

/-- Python `str` on an int. -/
def printInt (i : Int) : String :=
  if i < 0 then "-" ++ printNat i.natAbs else printNat i.natAbs

inductive PyErr where
  | valueError
  | overflowError
  | keyError
  | apiError
deriving DecidableEq

/-- Split an optional leading sign off a trimmed numeric literal. -/
def signSplit (t : List Char) : List Char × Bool :=
  match t with
  | c :: r => if c == '-' then (r, true) else if c == '+' then (r, false) else (t, false)
  | [] => ([], false)

/-- Python `int(s)` on a string: surrounding whitespace and one sign allowed,
then a non-empty run of decimal digits; anything else raises `ValueError`. -/
def pyInt (s : String) : Except PyErr Int :=
  let p := signSplit (stripL s.data)
  if p.1 ≠ [] ∧ p.1.all isDigitC then
    .ok (if p.2 then -(readDigits p.1 : Int) else (readDigits p.1 : Int))
  else .error .valueError

def isDigitDot (c : Char) : Bool := isDigitC c || c == '.'

def dotCount (l : List Char) : Nat := l.countP (fun c => c == '.')

/-- Digits before the first dot: the truncation of a digit/dot float literal. -/
def floorDigits (l : List Char) : Nat := readDigits (l.takeWhile isDigitC)

/-- Python `int(float(s))`: a digit/dot literal with at most one dot truncates
toward zero; a second dot (or other junk) raises `ValueError`; `inf` parses as
a float but overflows the int conversion; `nan` raises `ValueError`. -/
def pyIntFloat (s : String) : Except PyErr Int :=
  let p := signSplit (stripL s.data)
  if p.1 = "inf".data ∨ p.1 = "infinity".data then .error .overflowError
  else if p.1 = "nan".data then .error .valueError
  else if p.1.any isDigitC ∧ p.1.all isDigitDot ∧ dotCount p.1 ≤ 1 then
    .ok (if p.2 then -(floorDigits p.1 : Int) else (floorDigits p.1 : Int))
  else .error .valueError

/-- Python `s.replace(".", "")`. -/
def stripDots (s : String) : String := ⟨s.data.filter (fun c => (c == '.') = false)⟩

/-! ### The tabular store -/

abbrev Grid := List (List String)

/-- Row `r` (1-based); missing rows read as empty. -/
def getRow (g : Grid) (r : Nat) : List String := g.getD (r - 1) []

/-- Cell `(r, c)` (1-based); a missing cell reads as `""` (gspread `None`). -/
def getCell (g : Grid) (r c : Nat) : String := (getRow g r).getD (c - 1) ""

def padList (l : List String) (n : Nat) : List String :=
  l ++ List.replicate (n - l.length) ""

def setCellRow (row : List String) (c : Nat) (v : String) : List String :=
  (padList row c).set (c - 1) v

def padGrid (g : Grid) (r : Nat) : Grid := g ++ List.replicate (r - g.length) []

/-- `update_cell(r, c, v)`: pad as needed and set the cell. -/
def updateCell (g : Grid) (r c : Nat) (v : String) : Grid :=
  (padGrid g r).set (r - 1) (setCellRow (getRow g r) c v)

/-- Drop trailing blank cells, as gspread `row_values` does. -/
def trimTrail (l : List String) : List String :=
  (l.reverse.dropWhile (fun x => x == "")).reverse

/-- `row_values(1)`: the header row without trailing blanks. -/
def rowValues1 (g : Grid) : List String := trimTrail (getRow g 1)

/-- Which backing-store primitives raise (a network/auth failure against the
store).  All `false` means the store behaves normally. -/
structure Fault where
  onGetAll : Bool
  onRowVals : Bool
  onCell : Bool
  onSet : Bool
  onAppend : Bool
deriving DecidableEq

def noFault : Fault := ⟨false, false, false, false, false⟩

def faultGetAll : Fault := ⟨true, false, false, false, false⟩

def faultCell : Fault := ⟨false, false, true, false, false⟩

def faultAll : Fault := ⟨true, true, true, true, true⟩

/-- One store step: either a value with the grid so far, or an exception
carrying the grid at raise time. -/
abbrev StepRes (α : Type) := Except (PyErr × Grid) (α × Grid)

def stGetAll (f : Fault) (g : Grid) : StepRes Grid :=
  if f.onGetAll then .error (.apiError, g) else .ok (g, g)

def stRowValues (f : Fault) (g : Grid) : StepRes (List String) :=
  if f.onRowVals then .error (.apiError, g) else .ok (rowValues1 g, g)

def stCell (f : Fault) (r c : Nat) (g : Grid) : StepRes String :=
  if f.onCell then .error (.apiError, g) else .ok (getCell g r c, g)

def stSetCell (f : Fault) (r c : Nat) (v : String) (g : Grid) : StepRes Unit :=
  if f.onSet then .error (.apiError, g) else .ok ((), updateCell g r c v)

def stAppendRow (f : Fault) (row : List String) (g : Grid) : StepRes Unit :=
  if f.onAppend then .error (.apiError, g) else .ok ((), g ++ [row])

/-! ### Small list searches used by the Python code -/

/-- Index of the first element satisfying `p` (Python `list.index` shape). -/
def listIdxOfP (p : String → Bool) : List String → Option Nat
  | [] => none
  | a :: l => if p a then some 0 else (listIdxOfP p l).map (· + 1)

/-- `headers.index(label)` as an option (the `try/except ValueError` idiom). -/
def listIdxOf (l : List String) (x : String) : Option Nat := listIdxOfP (· == x) l

/-- Index of the *last* element whose `strip()` equals `x`: the value a Python
dict comprehension `{h.strip(): i for i, h in enumerate(headers)}` stores. -/
def lastIdxOfStrip : List String → String → Option Nat
  | [], _ => none
  | a :: l, x =>
    match lastIdxOfStrip l x with
    | some i => some (i + 1)
    | none => if pyStrip a == x then some 0 else none

/-- Scan rows with a predicate, returning the 1-based sheet index of the first
match (the `for i, row in enumerate(all_data[1:], start=2)` loops). -/
def scanRows (p : List String → Bool) : List (List String) → Nat → Option Nat
  | [], _ => none
  | r :: rs, i => if p r then some i else scanRows p rs (i + 1)

/-! ### Shared habit catalogs -/

/-- `sambo_core.record_activity`'s `habit_map`: id to (column label, name). -/
def samboHabitMap (h : Nat) : Option (String × String) :=
  match h with
  | 1 => some ("Prayer", "Prayer with first water")
  | 2 => some ("Qi Gong", "Qi Gong routine")
  | 3 => some ("Ball", "Freestyling on the ball")
  | 4 => some ("Run/Stretch", "20 minute run and stretch")
  | 5 => some ("Strength/Stretch", "Strengthening and stretching")
  | _ => none

/-- `bot.record_activity`'s `habit_map` (habit 3 has a different display name). -/
def botHabitMap (h : Nat) : Option (String × String) :=
  match h with
  | 1 => some ("Prayer", "Prayer with first water")
  | 2 => some ("Qi Gong", "Qi Gong routine")
  | 3 => some ("Ball", "Ball freestyling")
  | 4 => some ("Run/Stretch", "20 minute run and stretch")
  | 5 => some ("Strength/Stretch", "Strengthening and stretching")
  | _ => none

/-- The `col_map` shared by both consumption recorders:
letter to (count column, cost column, display name). -/
def consumptionConfig (c : Char) : Option (String × String × String) :=
  match c with
  | 'x' => some ("Coffee (x)", "Coffee Cost", "Coffee")
  | 'y' => some ("Sugary (y)", "Sugary Cost", "Sugary drinks")
  | 'z' => some ("Flour (z)", "Flour Cost", "Flour products")
  | _ => none

/-- The `lang_map` shared by both language recorders. -/
def langMap (code : String) : Option (String × String) :=
  if code == "ch" then some ("Chinese (ch)", "Chinese")
  else if code == "he" then some ("Hebrew (he)", "Hebrew")
  else if code == "ta" then some ("Tatar (ta)", "Tatar")
  else none

/-! ### sambo_core.py -/

/-- The row test of `sambo_core`'s find-or-create loops:
`len(row) > 1 and str(row[0]) == str(user_id) and row[1] == date_str`. -/
def samboRowPred (u d : String) (row : List String) : Bool :=
  decide (1 < row.length) && (row.getD 0 "" == u) && (row.getD 1 "" == d)

/-- The scan over `all_data[1:]` with sheet indices starting at 2. -/
def samboFindRow (u d : String) (g : Grid) : Option Nat :=
  scanRows (samboRowPred u d) (g.drop 1) 2

def samboActivityNewRow (u d w : String) : List String :=
  [u, d, "", "", "", "", "", w, ""]

/-- `sambo_core.find_or_create_activity_row`. -/
def samboFindOrCreateActivityRow (f : Fault) (u d w : String) (g : Grid) :
    StepRes Nat :=
  match stGetAll f g with
  | .error e => .error e
  | .ok (allData, g) =>
    match samboFindRow u d allData with
    | some i => .ok (i, g)
    | none =>
      match stAppendRow f (samboActivityNewRow u d w) g with
      | .error e => .error e
      | .ok (_, g) => .ok (allData.length + 1, g)

/-- The value `"✓ (HH:MM)"` written by `sambo_core.record_activity`. -/
def checkMark (t : String) : String := "✓ (" ++ t ++ ")"

/-- The header-resolution idiom of `sambo_core` (also `bot.record_consumption`
for the count column before its re-read): `headers.index(label) + 1`, creating
the label at `len(headers) + 1` on `ValueError`. -/
def resolveColumn (f : Fault) (label : String) (g : Grid) : StepRes Nat :=
  match stRowValues f g with
  | .error e => .error e
  | .ok (headers, g) =>
    match listIdxOf headers label with
    | some i => .ok (i + 1, g)
    | none =>
      match stSetCell f 1 (headers.length + 1) label g with
      | .error e => .error e
      | .ok (_, g) => .ok (headers.length + 1, g)

/-- `sambo_core.record_activity`.  No try/except anywhere in this file's
recorders: a store error propagates as a raw exception. -/
def samboRecordActivity (f : Fault) (u : String) (habitId : Nat)
    (today week time : String) (g : Grid) : StepRes (Bool × String) :=
  match samboHabitMap habitId with
  | none => .ok ((false, "Invalid habit number. Use 1-5."), g)
  | some (colName, habitName) =>
    match samboFindOrCreateActivityRow f u today week g with
    | .error e => .error e
    | .ok (rowNum, g) =>
      if rowNum == 0 then .ok ((false, "Failed to create activity row"), g)
      else
        match resolveColumn f colName g with
        | .error e => .error e
        | .ok (colIndex, g) =>
          match stCell f rowNum colIndex g with
          | .error e => .error e
          | .ok (v, g) =>
            if (pyStrip v == "") = false then
              .ok ((false, habitName ++ " already recorded today"), g)
            else
              match stSetCell f rowNum colIndex (checkMark time) g with
              | .error e => .error e
              | .ok (_, g) =>
                .ok ((true, "✓ " ++ habitName ++ " recorded at " ++ time ++ "!"), g)

def samboConsumptionNewRow (u d w : String) : List String :=
  [u, d, "0", "0", "0", "0", "0", "0", w, ""]

/-- `sambo_core.find_or_create_consumption_row`. -/
def samboFindOrCreateConsumptionRow (f : Fault) (u d w : String) (g : Grid) :
    StepRes Nat :=
  match stGetAll f g with
  | .error e => .error e
  | .ok (allData, g) =>
    match samboFindRow u d allData with
    | some i => .ok (i, g)
    | none =>
      match stAppendRow f (samboConsumptionNewRow u d w) g with
      | .error e => .error e
      | .ok (_, g) => .ok (allData.length + 1, g)

/-- `int(value or 0)` on a cell: blank becomes 0, anything else goes through
`int(...)` and can raise `ValueError`. -/
def samboCellInt (v : String) : Except PyErr Int :=
  if v == "" then .ok 0 else pyInt v

/-- `sambo_core.record_consumption`.  Faithful quirks: only the *first*
character of token 1 is validated; the cost guard is
`parts[1].replace(".", "").isdigit()` with an unguarded `int(float(...))`;
the cost column is created at `len(headers) + 2` using the stale header list;
both count and cost cells are always rewritten. -/
def samboRecordConsumption (f : Fault) (u text today week : String) (g : Grid) :
    StepRes (Bool × String) :=
  let parts := pySplit (pyLower (pyStrip text))
  match parts with
  | [] => .ok ((false, "Invalid format. Use: x, xx, xx 150, y 75, z"), g)
  | p0 :: rest =>
    let c0 := p0.data.headD ' '
    if (c0 == 'x' || c0 == 'y' || c0 == 'z') = false then
      .ok ((false, "Invalid format. Use: x, xx, xx 150, y 75, z"), g)
    else
      let count : Nat := p0.length
      let costE : Except PyErr Int :=
        match rest with
        | [] => .ok 0
        | p1 :: _ =>
          if (stripDots p1).data ≠ [] ∧ (stripDots p1).data.all isDigitC then
            pyIntFloat p1
          else .ok 0
      match costE with
      | .error e => .error (e, g)
      | .ok cost =>
        match consumptionConfig c0 with
        | none => .ok ((false, "Invalid type. Use x, y, or z"), g)
        | some (countCol, costCol, name) =>
          match samboFindOrCreateConsumptionRow f u today week g with
          | .error e => .error e
          | .ok (rowNum, g) =>
            if rowNum == 0 then
              .ok ((false, "Failed to create consumption row"), g)
            else
              match stRowValues f g with
              | .error e => .error e
              | .ok (headers, g) =>
                match (match listIdxOf headers countCol with
                  | some i => .ok (i + 1, g)
                  | none =>
                    match stSetCell f 1 (headers.length + 1) countCol g with
                    | .error e => .error e
                    | .ok (_, g) => .ok (headers.length + 1, g) : StepRes Nat) with
                | .error e => .error e
                | .ok (countIdx, g) =>
                  match (match listIdxOf headers costCol with
                    | some i => .ok (i + 1, g)
                    | none =>
                      match stSetCell f 1 (headers.length + 2) costCol g with
                      | .error e => .error e
                      | .ok (_, g) => .ok (headers.length + 2, g) : StepRes Nat) with
                  | .error e => .error e
                  | .ok (costIdx, g) =>
                    match stCell f rowNum countIdx g with
                    | .error e => .error e
                    | .ok (curCountS, g) =>
                      match stCell f rowNum costIdx g with
                      | .error e => .error e
                      | .ok (curCostS, g) =>
                        match samboCellInt curCountS with
                        | .error e => .error (e, g)
                        | .ok curCount =>
                          match samboCellInt curCostS with
                          | .error e => .error (e, g)
                          | .ok curCost =>
                            let newCount := curCount + (count : Int)
                            let newCost := curCost + cost
                            match stSetCell f rowNum countIdx (printInt newCount) g with
                            | .error e => .error e
                            | .ok (_, g) =>
                              match stSetCell f rowNum costIdx (printInt newCost) g with
                              | .error e => .error e
                              | .ok (_, g) =>
                                let costText :=
                                  if 0 < cost then " (" ++ printInt cost ++ " rub)" else ""
                                .ok ((true, "✓ " ++ name ++ " x" ++ printNat count ++
                                  " recorded" ++ costText ++ "! Total today: " ++
                                  printInt newCount), g)

def samboLanguageNewRow (u d w : String) : List String :=
  [u, d, "0", "0", "0", w, ""]

/-- `sambo_core.find_or_create_language_row`. -/
def samboFindOrCreateLanguageRow (f : Fault) (u d w : String) (g : Grid) :
    StepRes Nat :=
  match stGetAll f g with
  | .error e => .error e
  | .ok (allData, g) =>
    match samboFindRow u d allData with
    | some i => .ok (i, g)
    | none =>
      match stAppendRow f (samboLanguageNewRow u d w) g with
      | .error e => .error e
      | .ok (_, g) => .ok (allData.length + 1, g)

/-- `sambo_core.record_language`.  `int(current_value or 0) + 1` raises on a
non-numeric cell; the incremented count is written back. -/
def samboRecordLanguage (f : Fault) (u code today week time : String) (g : Grid) :
    StepRes (Bool × String) :=
  match langMap code with
  | none => .ok ((false, "Invalid language code. Use: ch, he, ta"), g)
  | some (colName, langName) =>
    match samboFindOrCreateLanguageRow f u today week g with
    | .error e => .error e
    | .ok (rowNum, g) =>
      if rowNum == 0 then .ok ((false, "Failed to create language row"), g)
      else
        match resolveColumn f colName g with
        | .error e => .error e
        | .ok (colIndex, g) =>
          match stCell f rowNum colIndex g with
          | .error e => .error e
          | .ok (v, g) =>
            match samboCellInt v with
            | .error e => .error (e, g)
            | .ok cur =>
              let ns := cur + 1
              match stSetCell f rowNum colIndex (printInt ns) g with
              | .error e => .error e
              | .ok (_, g) =>
                .ok ((true, "✓ " ++ langName ++ " session #" ++ printInt ns ++
                  " recorded at " ++ time ++ "!"), g)

/-! ### bot.py -/

/-- `str(row[k]).strip() if row[k] else ""`: the guarded cell normalization in
`bot.py`'s row scans. -/
def botCellStrip (v : String) : String := if v == "" then "" else pyStrip v

/-- Substring test, Python's `"Cost" in header_name`. -/
def isSubL (n : List Char) : List Char → Bool
  | [] => n.isEmpty
  | b :: bs => (n.isPrefixOf (b :: bs) : Bool) || isSubL n bs

def containsStr (hay needle : String) : Bool := isSubL needle.data hay.data

/-- `int(v) if v and str(v).strip() else 0` under `except: 0` — the total
cell-to-int parse used throughout `bot.py`. -/
def parseCellInt (v : String) : Int :=
  if v == "" then 0
  else if pyStrip v == "" then 0
  else match pyInt v with
    | .ok n => n
    | .error _ => 0

/-- `bot.find_or_create_activity_row` before its own `except` handler.
Column positions come from `{h.strip(): i for i, h in enumerate(headers)}`
(0-based, last duplicate wins); required columns must exist; inputs are
stripped; a new full-width row is appended and the row count re-read. -/
def botActRowBody (f : Fault) (u d w : String) (g : Grid) :
    StepRes (Option Nat) :=
  match stGetAll f g with
  | .error e => .error e
  | .ok (allData, g) =>
    match stRowValues f g with
    | .error e => .error e
    | .ok (headers, g) =>
      match lastIdxOfStrip headers "User ID", lastIdxOfStrip headers "Date",
          lastIdxOfStrip headers "Week Number" with
      | some ucol, some dcol, some wcol =>
        let uStr := pyStrip u
        let dStr := pyStrip d
        match scanRows (fun row =>
            (pyStrip (row.getD ucol "") == uStr) &&
            (pyStrip (row.getD dcol "") == dStr)) (allData.drop 1) 2 with
        | some i => .ok (some i, g)
        | none =>
          let base := (((List.replicate headers.length "").set ucol uStr).set
            dcol dStr).set wcol w
          let newRow :=
            match lastIdxOfStrip headers "Goals" with
            | some gcol => base.set gcol ""
            | none => base
          match stAppendRow f newRow g with
          | .error e => .error e
          | .ok (_, g) =>
            match stGetAll f g with
            | .error e => .error e
            | .ok (updated, g) => .ok (some updated.length, g)
      | _, _, _ => .ok (none, g)

/-- `bot.find_or_create_activity_row`: the body with its `except` handler,
which turns any exception into `None`. -/
def botFindOrCreateActivityRow (f : Fault) (u d w : String) (g : Grid) :
    Option Nat × Grid :=
  match botActRowBody f u d w g with
  | .ok p => p
  | .error (_, g) => (none, g)

/-- `bot.record_activity` before its outer `except` handler.  The habit column
is looked up in `{h.strip(): i for i, h in enumerate(headers, start=1)}` and is
*not* created when missing; the cell is re-read after writing (the logged
verification read). -/
def botActBody (f : Fault) (u : String) (habitId : Nat)
    (today week time : String) (g : Grid) : StepRes (Bool × String) :=
  match botHabitMap habitId with
  | none => .ok ((false, "Invalid habit number. Use 1-5."), g)
  | some (colName, habitName) =>
    match botFindOrCreateActivityRow f u today week g with
    | (none, g) => .ok ((false, "Failed to create activity row"), g)
    | (some rowNum, g) =>
      match stRowValues f g with
      | .error e => .error e
      | .ok (headers, g) =>
        match lastIdxOfStrip headers colName with
        | none =>
          .ok ((false, "Column \x27" ++ colName ++
            "\x27 not found in sheet. Please add it manually."), g)
        | some i0 =>
          let colIndex := i0 + 1
          match stCell f rowNum colIndex g with
          | .error e => .error e
          | .ok (v, g) =>
            if (pyStrip v == "") = false then
              .ok ((false, habitName ++ " already recorded today"), g)
            else
              match stSetCell f rowNum colIndex "✓" g with
              | .error e => .error e
              | .ok (_, g) =>
                match stCell f rowNum colIndex g with
                | .error e => .error e
                | .ok (_, g) =>
                  .ok ((true, "✓ " ++ habitName ++ " recorded at " ++ time ++ "!"), g)

/-- `bot.record_activity` with its outer catch-all handler. -/
def botRecordActivity (f : Fault) (u : String) (habitId : Nat)
    (today week time : String) (g : Grid) : (Bool × String) × Grid :=
  match botActBody f u habitId today week time g with
  | .ok p => p
  | .error (_, g) => ((false, "Error recording habit"), g)

/-- Fill for a fresh consumption row: zero for count/cost columns, the week
label under "Week Number", blank otherwise. -/
def botConsFill (w : String) (h : String) : String :=
  if containsStr h "Cost" ||
      (h == "Coffee (x)" || h == "Sugary (y)" || h == "Flour (z)") then "0"
  else if h == "Week Number" then w
  else ""

/-- `bot.find_or_create_consumption_row` before its `except` handler. -/
def botConsRowBody (f : Fault) (u d w : String) (g : Grid) :
    StepRes (Option Nat) :=
  match stGetAll f g with
  | .error e => .error e
  | .ok (allData, g) =>
    match scanRows (fun row =>
        decide (2 ≤ row.length) &&
        (botCellStrip (row.getD 0 "") == pyStrip u) &&
        (botCellStrip (row.getD 1 "") == d)) (allData.drop 1) 2 with
    | some i => .ok (some i, g)
    | none =>
      match stRowValues f g with
      | .error e => .error e
      | .ok (headers, g) =>
        let newRow := [u, d] ++ (headers.drop 2).map (botConsFill w)
        match stAppendRow f newRow g with
        | .error e => .error e
        | .ok (_, g) =>
          match stGetAll f g with
          | .error e => .error e
          | .ok (updated, g) => .ok (some updated.length, g)

/-- `bot.find_or_create_consumption_row` with its `except` handler. -/
def botFindOrCreateConsumptionRow (f : Fault) (u d w : String) (g : Grid) :
    Option Nat × Grid :=
  match botConsRowBody f u d w g with
  | .ok p => p
  | .error (_, g) => (none, g)

/-- `bot.record_consumption` before its outer `except` handler.  Faithful
details: token 1 must be all one repeated character; the cost parse catches
only `ValueError`/`IndexError` (an `OverflowError` from `int(float("inf"))`
escapes to the outer handler); the count column creation re-reads the header
row before the cost column is resolved; the cost cell is written only when
`cost > 0`. -/
def botConsBody (f : Fault) (u text today week : String) (g : Grid) :
    StepRes (Bool × String) :=
  let parts := pySplit (pyLower (pyStrip text))
  match parts with
  | [] => .ok ((false, "Invalid format. Use: x, xx, xxx, y, z"), g)
  | p0 :: rest =>
    let c0 := p0.data.headD ' '
    if p0 == "" || !(c0 == 'x' || c0 == 'y' || c0 == 'z') then
      .ok ((false, "Start with x, y, or z"), g)
    else
      let count : Nat := p0.length
      if (p0.data.all (fun c => c == c0)) = false then
        .ok ((false, "Use only \x27" ++ String.mk [c0] ++ "\x27 characters"), g)
      else
        match (match rest with
          | [] => .ok 0
          | p1 :: _ =>
            match pyIntFloat p1 with
            | .ok c => .ok c
            | .error .valueError => .ok 0
            | .error e => .error e : Except PyErr Int) with
        | .error e => .error (e, g)
        | .ok cost =>
          match consumptionConfig c0 with
          | none => .error (.keyError, g)
          | some (countCol, costCol, name) =>
            match botFindOrCreateConsumptionRow f u today week g with
            | (none, g) => .ok ((false, "Failed to create consumption row"), g)
            | (some rowNum, g) =>
              match stRowValues f g with
              | .error e => .error e
              | .ok (headers, g) =>
                match (match listIdxOf headers countCol with
                  | some i => .ok ((i + 1, headers), g)
                  | none =>
                    match stSetCell f 1 (headers.length + 1) countCol g with
                    | .error e => .error e
                    | .ok (_, g) =>
                      match stRowValues f g with
                      | .error e => .error e
                      | .ok (headers2, g) =>
                        .ok ((headers.length + 1, headers2), g) :
                  StepRes (Nat × List String)) with
                | .error e => .error e
                | .ok ((countIdx, headers2), g) =>
                  match (match listIdxOf headers2 costCol with
                    | some i => .ok (i + 1, g)
                    | none =>
                      match stSetCell f 1 (headers2.length + 1) costCol g with
                      | .error e => .error e
                      | .ok (_, g) => .ok (headers2.length + 1, g) :
                    StepRes Nat) with
                  | .error e => .error e
                  | .ok (costIdx, g) =>
                    match stCell f rowNum countIdx g with
                    | .error e => .error e
                    | .ok (curCountS, g) =>
                      match stCell f rowNum costIdx g with
                      | .error e => .error e
                      | .ok (curCostS, g) =>
                        let newCount := parseCellInt curCountS + (count : Int)
                        let newCost := parseCellInt curCostS + cost
                        match stSetCell f rowNum countIdx (printInt newCount) g with
                        | .error e => .error e
                        | .ok (_, g) =>
                          match (if 0 < cost then
                              stSetCell f rowNum costIdx (printInt newCost) g
                            else .ok ((), g)) with
                          | .error e => .error e
                          | .ok (_, g) =>
                            let costText :=
                              if 0 < cost then " (" ++ printInt cost ++ " rub)" else ""
                            .ok ((true, "✓ " ++ name ++ " x" ++ printNat count ++
                              " recorded" ++ costText ++ "! Total: " ++
                              printInt newCount), g)

/-- `bot.record_consumption` with its outer catch-all handler. -/
def botRecordConsumption (f : Fault) (u text today week : String) (g : Grid) :
    (Bool × String) × Grid :=
  match botConsBody f u text today week g with
  | .ok p => p
  | .error (_, g) => ((false, "Error recording consumption"), g)

/-- Fill for a fresh language row. -/
def botLangFill (w : String) (h : String) : String :=
  if h == "Chinese (ch)" || h == "Hebrew (he)" || h == "Tatar (ta)" then "0"
  else if h == "Week Number" then w
  else ""

/-- `bot.find_or_create_language_row` before its `except` handler. -/
def botLangRowBody (f : Fault) (u d w : String) (g : Grid) :
    StepRes (Option Nat) :=
  match stGetAll f g with
  | .error e => .error e
  | .ok (allData, g) =>
    match scanRows (fun row =>
        decide (2 ≤ row.length) &&
        (botCellStrip (row.getD 0 "") == pyStrip u) &&
        (botCellStrip (row.getD 1 "") == d)) (allData.drop 1) 2 with
    | some i => .ok (some i, g)
    | none =>
      match stRowValues f g with
      | .error e => .error e
      | .ok (headers, g) =>
        let newRow := [u, d] ++ (headers.drop 2).map (botLangFill w)
        match stAppendRow f newRow g with
        | .error e => .error e
        | .ok (_, g) =>
          match stGetAll f g with
          | .error e => .error e
          | .ok (updated, g) => .ok (some updated.length, g)

/-- `bot.find_or_create_language_row` with its `except` handler. -/
def botFindOrCreateLanguageRow (f : Fault) (u d w : String) (g : Grid) :
    Option Nat × Grid :=
  match botLangRowBody f u d w g with
  | .ok p => p
  | .error (_, g) => (none, g)

/-- `bot.record_language` before its outer `except` handler.  The column is
found by the first header whose `strip()` equals the label, created at
`len(headers) + 1` when missing; a blank or non-numeric cell counts as 0. -/
def botLangBody (f : Fault) (u code today week time : String) (g : Grid) :
    StepRes (Bool × String) :=
  match langMap code with
  | none => .ok ((false, "Invalid language code. Use: ch, he, ta"), g)
  | some (colName, langName) =>
    match botFindOrCreateLanguageRow f u today week g with
    | (none, g) => .ok ((false, "Failed to create language row"), g)
    | (some rowNum, g) =>
      match stRowValues f g with
      | .error e => .error e
      | .ok (headers, g) =>
        match (match listIdxOfP (fun h => pyStrip h == colName) headers with
          | some i => .ok (i + 1, g)
          | none =>
            match stSetCell f 1 (headers.length + 1) colName g with
            | .error e => .error e
            | .ok (_, g) => .ok (headers.length + 1, g) : StepRes Nat) with
        | .error e => .error e
        | .ok (colIndex, g) =>
          match stCell f rowNum colIndex g with
          | .error e => .error e
          | .ok (v, g) =>
            let ns := parseCellInt v + 1
            match stSetCell f rowNum colIndex (printInt ns) g with
            | .error e => .error e
            | .ok (_, g) =>
              .ok ((true, "✓ " ++ langName ++ " session #" ++ printInt ns ++
                " recorded at " ++ time ++ "!"), g)

/-- `bot.record_language` with its outer catch-all handler. -/
def botRecordLanguage (f : Fault) (u code today week time : String) (g : Grid) :
    (Bool × String) × Grid :=
  match botLangBody f u code today week time g with
  | .ok p => p
  | .error (_, g) => ((false, "Error recording language"), g)

/-! ### The Telegram dispatcher (bot.py handlers) -/

def denialMsg : String := "Sorry, this bot is for authorized users only."

/-- `bot.handle_activity`: `if user_id != int(bot.user_id)` — the inbound
integer caller id is compared against `int(...)` of the configured string. -/
def handleActivity (f : Fault) (cfgUid : String) (caller : Int) (habitId : Nat)
    (today week time : String) (g : Grid) : StepRes String :=
  match pyInt cfgUid with
  | .error e => .error (e, g)
  | .ok n =>
    if (caller == n) = false then .ok (denialMsg, g)
    else
      match botRecordActivity f (printInt caller) habitId today week time g with
      | (p, g) => .ok (p.2, g)

/-- `bot.handle_message`: authorize (integer comparison), then classify the
normalized text as a language code, a consumption entry, or unknown. -/
def handleMessage (f : Fault) (cfgUid : String) (caller : Int)
    (text today week time : String) (g : Grid) : StepRes String :=
  match pyInt cfgUid with
  | .error e => .error (e, g)
  | .ok n =>
    if (caller == n) = false then .ok (denialMsg, g)
    else
      let t := pyLower (pyStrip text)
      if t == "ch" || t == "he" || t == "ta" then
        match botRecordLanguage f (printInt caller) t today week time g with
        | (p, g) => .ok (p.2, g)
      else if (!(t == "") && (t.data.headD ' ' == 'x' ||
          t.data.headD ' ' == 'y' || t.data.headD ' ' == 'z')) = true then
        match botRecordConsumption f (printInt caller) t today week g with
        | (p, g) => .ok (p.2, g)
      else .ok ("Unknown command. Type /help for instructions.", g)

/-! ### Derived notions used by the specification claims -/

/-- The column index `sambo_core`'s resolution would use for `lbl` on grid `g`
(1-based): the found index, or one past the current header row. -/
def samboColProbe (g : Grid) (lbl : String) : Nat :=
  match listIdxOf (rowValues1 g) lbl with
  | some j => j + 1
  | none => (rowValues1 g).length + 1

/-- The value `sambo_core.record_activity` would find in "today's activity
cell": resolve the row (creating it if absent) and read the resolved column.
This makes "the cell is blank or absent" a checkable premise. -/
def samboActivityProbe (u d w lbl : String) (g : Grid) : String :=
  match samboFindOrCreateActivityRow noFault u d w g with
  | .ok (r, g1) => getCell g1 r (samboColProbe g lbl)
  | .error _ => ""

/-- The value `bot.record_activity` would find in today's cell of column `c`. -/
def botActivityProbe (u d w : String) (c : Nat) (g : Grid) : String :=
  match botFindOrCreateActivityRow noFault u d w g with
  | (some r, g1) => getCell g1 r c
  | (none, _) => ""

/-- Data rows matching `sambo_core`'s (user, date) row test. -/
def samboMatchCount (u d : String) (g : Grid) : Nat :=
  (g.drop 1).countP (samboRowPred u d)

/-- Data rows matching `bot.find_or_create_activity_row`'s stripped row test
at the given 0-based column positions. -/
def botMatchCount (ucol dcol : Nat) (u d : String) (g : Grid) : Nat :=
  (g.drop 1).countP (fun row =>
    (pyStrip (row.getD ucol "") == u) && (pyStrip (row.getD dcol "") == d))

/-- A Language sheet holding only its header row. -/
def langHeader : List String :=
  ["User ID", "Date", "Chinese (ch)", "Hebrew (he)", "Tatar (ta)", "Week Number"]

/-- 1-based column of each language code in `langHeader`. -/
def langColOf (code : String) : Nat :=
  if code == "ch" then 3 else if code == "he" then 4 else 5

/-- The single data row of the Language sheet after `k` sessions of one code. -/
def langStateRow (u d w : String) (j k : Nat) : List String :=
  ([u, d, "0", "0", "0", w]).set (j - 1) (printNat k)

/-- The Language sheet after `k` same-day `bot.record_language` calls for one
code, starting from the bare header. -/
def langState (u d w code : String) (k : Nat) : Grid :=
  match k with
  | 0 => [langHeader]
  | _ => [langHeader, langStateRow u d w (langColOf code) k]

/-- Run `bot.record_language` `n` times on a healthy store, collecting the
reply messages in call order. -/
def runBotLanguage (u code today week time : String) : Nat → Grid → Grid × List String
  | 0, g => (g, [])
  | n + 1, g =>
    match botRecordLanguage noFault u code today week time g with
    | ((_, m), g1) =>
      let r := runBotLanguage u code today week time n g1
      (r.1, m :: r.2)

/-- Fresh Activity sheet without the "Prayer" column. -/
def actHeaderBare : Grid := [["User ID", "Date", "Week Number"]]

/-- Fresh Activity sheet with the "Prayer" column. -/
def actHeaderFull : Grid := [["User ID", "Date", "Week Number", "Prayer"]]

/-- Fresh Consumption sheet. -/
def consHeader : Grid :=
  [["User ID", "Date", "Coffee (x)", "Coffee Cost", "Week Number"]]

/-! ### Lemmas: Python strings -/

theorem mem_dropWhile_of_not {p : Char → Bool} {c : Char} (hc : p c = false) :
    ∀ l : List Char, c ∈ l → c ∈ l.dropWhile p := by
  intro l
  induction l with
  | nil => intro h; exact absurd h (List.not_mem_nil c)
  | cons a l ih =>
    intro h
    rw [List.dropWhile_cons]
    by_cases ha : p a = true
    · rw [if_pos ha]
      rcases List.mem_cons.mp h with h1 | h2
      · subst h1; rw [hc] at ha; exact absurd ha (by simp)
      · exact ih h2
    · rw [if_neg ha]; exact h

theorem dropWhile_eq_self_of_all {p : Char → Bool} {l : List Char}
    (h : ∀ c ∈ l, p c = false) : l.dropWhile p = l := by
  cases l with
  | nil => rfl
  | cons a l => rw [List.dropWhile_cons, if_neg (by rw [h a (List.mem_cons_self a l)]; simp)]

theorem stripL_eq_self_of_all {l : List Char}
    (h : ∀ c ∈ l, isPySpace c = false) : stripL l = l := by
  unfold stripL lstripL rstripL
  rw [dropWhile_eq_self_of_all h,
    dropWhile_eq_self_of_all (fun c hc => h c (List.mem_reverse.mp hc)),
    List.reverse_reverse]

theorem stripL_ne_nil {l : List Char} {c : Char} (hmem : c ∈ l)
    (hc : isPySpace c = false) : stripL l ≠ [] := by
  unfold stripL rstripL
  intro h
  have h1 : c ∈ lstripL l := mem_dropWhile_of_not hc l hmem
  have h2 : c ∈ (lstripL l).reverse.dropWhile isPySpace :=
    mem_dropWhile_of_not hc _ (List.mem_reverse.mpr h1)
  rw [List.reverse_eq_nil_iff.mp h] at h2
  exact absurd h2 (List.not_mem_nil c)

theorem pyStrip_eq_self_of_all {s : String}
    (h : ∀ c ∈ s.data, isPySpace c = false) : pyStrip s = s := by
  unfold pyStrip
  cases s with
  | mk data => exact congrArg String.mk (stripL_eq_self_of_all h)

theorem pyStrip_ne_empty {s : String} {c : Char} (hmem : c ∈ s.data)
    (hc : isPySpace c = false) : (pyStrip s == "") = false := by
  unfold pyStrip
  have : stripL s.data ≠ [] := stripL_ne_nil hmem hc
  cases hd : stripL s.data with
  | nil => exact absurd hd this
  | cons a l => rfl

/-! ### Lemmas: decimal printing and parsing -/

theorem isDigitC_digitCharOf (n : Nat) : isDigitC (digitCharOf n) = true := by
  rcases n with _|_|_|_|_|_|_|_|_|_ <;> rfl

theorem digitVal_digitCharOf {n : Nat} (h : n < 10) :
    digitVal (digitCharOf n) = n := by
  interval_cases n <;> rfl

theorem isPySpace_eq_false_of_digit {c : Char} (h : isDigitC c = true) :
    isPySpace c = false := by
  cases hps : isPySpace c
  · rfl
  · exfalso
    unfold isPySpace at hps
    simp only [Bool.or_eq_true, beq_iff_eq] at hps
    rcases hps with ((((h1 | h1) | h1) | h1) | h1) | h1 <;>
      (subst h1; exact absurd h (by decide))

theorem printNatAux_all_digit :
    ∀ fuel n, ∀ c ∈ printNatAux fuel n, isDigitC c = true := by
  intro fuel
  induction fuel with
  | zero => intro n c hc; exact absurd hc (List.not_mem_nil c)
  | succ fuel ih =>
    intro n c hc
    rw [printNatAux] at hc
    by_cases h10 : n < 10
    · rw [if_pos h10] at hc
      rcases List.mem_singleton.mp hc with h
      subst h; exact isDigitC_digitCharOf n
    · rw [if_neg h10] at hc
      rcases List.mem_append.mp hc with h | h
      · exact ih _ c h
      · have hc9 := List.mem_singleton.mp h
        subst hc9; exact isDigitC_digitCharOf _

theorem printNatAux_ne_nil {fuel n : Nat} (h : 0 < fuel) :
    printNatAux fuel n ≠ [] := by
  cases fuel with
  | zero => exact absurd h (by omega)
  | succ fuel =>
    rw [printNatAux]
    by_cases h10 : n < 10
    · rw [if_pos h10]; simp
    · rw [if_neg h10]; simp

theorem readDigits_append (l : List Char) (c : Char) :
    readDigits (l ++ [c]) = readDigits l * 10 + digitVal c := by
  unfold readDigits
  rw [List.foldl_append]
  rfl

theorem readDigits_printNatAux :
    ∀ fuel n, n < fuel → readDigits (printNatAux fuel n) = n := by
  intro fuel
  induction fuel with
  | zero => intro n h; omega
  | succ fuel ih =>
    intro n h
    rw [printNatAux]
    by_cases h10 : n < 10
    · rw [if_pos h10]
      show readDigits [digitCharOf n] = n
      unfold readDigits
      simp [digitVal_digitCharOf h10]
    · rw [if_neg h10]
      have hdiv : n / 10 < fuel := by
        have h1 : n / 10 < n := Nat.div_lt_self (by omega) (by omega)
        omega
      rw [readDigits_append, ih _ hdiv,
        digitVal_digitCharOf (Nat.mod_lt n (by omega))]
      omega

theorem readDigits_printNat (n : Nat) : readDigits (printNat n).data = n :=
  readDigits_printNatAux (n + 1) n (by omega)

theorem printNat_data_digits (n : Nat) :
    ∀ c ∈ (printNat n).data, isDigitC c = true :=
  printNatAux_all_digit (n + 1) n

theorem printNat_data_ne_nil (n : Nat) : (printNat n).data ≠ [] :=
  printNatAux_ne_nil (by omega)

theorem printNat_ne_empty (n : Nat) : (printNat n == "") = false := by
  have h := printNat_data_ne_nil n
  cases hd : (printNat n).data with
  | nil => exact absurd hd h
  | cons a l =>
    cases hp : printNat n with
    | mk data =>
      rw [hp] at hd
      simp only [String.data] at hd
      subst hd
      rfl

theorem pyStrip_printNat (n : Nat) : pyStrip (printNat n) = printNat n :=
  pyStrip_eq_self_of_all
    (fun c hc => isPySpace_eq_false_of_digit (printNat_data_digits n c hc))

theorem signSplit_digits {l : List Char} {a : Char} {as : List Char}
    (heq : l = a :: as) (ha : isDigitC a = true) : signSplit l = (l, false) := by
  subst heq
  rw [show signSplit (a :: as) =
    (if (a == '-') = true then (as, true)
     else if (a == '+') = true then (as, false) else (a :: as, false)) from rfl]
  rw [if_neg (by intro h; rw [beq_iff_eq] at h; subst h; exact absurd ha (by decide)),
    if_neg (by intro h; rw [beq_iff_eq] at h; subst h; exact absurd ha (by decide))]

theorem pyInt_printNat (n : Nat) : pyInt (printNat n) = .ok n := by
  unfold pyInt
  have hall := printNat_data_digits n
  have hstrip : stripL (printNat n).data = (printNat n).data :=
    stripL_eq_self_of_all (fun c hc => isPySpace_eq_false_of_digit (hall c hc))
  obtain ⟨a, as, heq⟩ := List.exists_cons_of_ne_nil (printNat_data_ne_nil n)
  rw [hstrip, signSplit_digits heq (hall a (heq ▸ List.mem_cons_self a as))]
  rw [if_pos ⟨by rw [heq]; simp, by
    rw [List.all_eq_true]; intro c hc; exact hall c hc⟩]
  simp [readDigits_printNat]

theorem samboCellInt_printNat (n : Nat) : samboCellInt (printNat n) = .ok n := by
  unfold samboCellInt
  rw [if_neg (by rw [printNat_ne_empty n]; simp), pyInt_printNat]

theorem parseCellInt_printNat (n : Nat) : parseCellInt (printNat n) = n := by
  unfold parseCellInt
  rw [if_neg (by rw [printNat_ne_empty n]; simp),
    if_neg (by rw [pyStrip_printNat, printNat_ne_empty n]; simp),
    pyInt_printNat]

theorem printInt_natCast (n : Nat) : printInt (n : Int) = printNat n := by
  unfold printInt
  rw [if_neg (by omega)]
  simp

/-! ### Lemmas: list access -/

theorem getD_set_self {α : Type} :
    ∀ (l : List α) (n : Nat) (a d : α), n < l.length → (l.set n a).getD n d = a := by
  intro l
  induction l with
  | nil => intro n a d h; simp at h
  | cons b l ih =>
    intro n a d h
    cases n with
    | zero => rfl
    | succ n => exact ih n a d (by simpa using h)

theorem getD_set_ne {α : Type} :
    ∀ (l : List α) (n m : Nat) (a d : α), n ≠ m → (l.set n a).getD m d = l.getD m d := by
  intro l
  induction l with
  | nil => intro n m a d _; simp
  | cons b l ih =>
    intro n m a d h
    cases n with
    | zero =>
      cases m with
      | zero => exact absurd rfl h
      | succ m => rfl
    | succ n =>
      cases m with
      | zero => rfl
      | succ m => exact ih n m a d (by omega)

theorem getD_append_left {α : Type} :
    ∀ (l l' : List α) (n : Nat) (d : α), n < l.length →
      (l ++ l').getD n d = l.getD n d := by
  intro l
  induction l with
  | nil => intro l' n d h; simp at h
  | cons b l ih =>
    intro l' n d h
    cases n with
    | zero => rfl
    | succ n => exact ih l' n d (by simpa using h)

theorem getD_append_right {α : Type} :
    ∀ (l l' : List α) (n : Nat) (d : α),
      (l ++ l').getD (l.length + n) d = l'.getD n d := by
  intro l
  induction l with
  | nil => intro l' n d; simp
  | cons b l ih =>
    intro l' n d
    have : (b :: l).length + n = (l.length + n) + 1 := by simp; omega
    rw [this]
    exact ih l' n d

theorem getD_ge_length {α : Type} :
    ∀ (l : List α) (n : Nat) (d : α), l.length ≤ n → l.getD n d = d := by
  intro l
  induction l with
  | nil => intro n d _; simp
  | cons b l ih =>
    intro n d h
    cases n with
    | zero => simp at h
    | succ n => exact ih n d (by simpa using h)

theorem getD_replicate_own {α : Type} :
    ∀ (k n : Nat) (x d : α),
      (List.replicate k x).getD n d = if n < k then x else d := by
  intro k
  induction k with
  | zero => intro n x d; simp
  | succ k ih =>
    intro n x d
    cases n with
    | zero => simp [List.replicate]
    | succ n =>
      rw [List.replicate, List.getD_cons_succ, ih]
      by_cases h : n < k
      · rw [if_pos h, if_pos (by omega)]
      · rw [if_neg h, if_neg (by omega)]

theorem getD_padList (l : List String) (n j : Nat) :
    (padList l n).getD j "" = l.getD j "" := by
  unfold padList
  by_cases h : j < l.length
  · exact getD_append_left l _ j "" h
  · rw [getD_ge_length l j "" (by omega)]
    by_cases h2 : j < l.length + (n - l.length)
    · have : j = l.length + (j - l.length) := by omega
      rw [this, getD_append_right]
      rcases Nat.lt_or_ge (j - l.length) (n - l.length) with h3 | h3
      · simp [getD_replicate_own, h3]
      · rw [getD_ge_length _ _ _ (by simpa using h3)]
    · rw [getD_ge_length _ _ _ (by simp; omega)]

theorem set_append_right {α : Type} :
    ∀ (l l' : List α) (n : Nat) (a : α),
      (l ++ l').set (l.length + n) a = l ++ l'.set n a := by
  intro l
  induction l with
  | nil => intro l' n a; simp
  | cons b l ih =>
    intro l' n a
    have : (b :: l).length + n = (l.length + n) + 1 := by simp; omega
    rw [this]
    show b :: ((l ++ l').set (l.length + n) a) = b :: (l ++ l'.set n a)
    rw [ih]

theorem padList_of_le {l : List String} {n : Nat} (h : n ≤ l.length) :
    padList l n = l := by
  unfold padList
  rw [Nat.sub_eq_zero_of_le h]
  simp

/-! ### Lemmas: row scans and index lookups -/

theorem scanRows_eq_none {p : List String → Bool} :
    ∀ (l : List (List String)) (i : Nat),
      scanRows p l i = none ↔ ∀ r ∈ l, p r = false := by
  intro l
  induction l with
  | nil => intro i; simp [scanRows]
  | cons a l ih =>
    intro i
    rw [scanRows]
    by_cases ha : p a = true
    · rw [if_pos ha]
      constructor
      · intro h; exact absurd h (by simp)
      · intro h; rw [h a (List.mem_cons_self a l)] at ha; exact absurd ha (by simp)
    · rw [if_neg ha]
      constructor
      · intro h r hr
        rcases List.mem_cons.mp hr with h1 | h2
        · subst h1; simpa using ha
        · exact (ih (i + 1)).mp h r h2
      · intro h; exact (ih (i + 1)).mpr (fun r hr => h r (List.mem_cons_of_mem a hr))

theorem scanRows_append_none {p : List String → Bool} {l : List (List String)}
    (h : ∀ r ∈ l, p r = false) (x : List String) (i : Nat) :
    scanRows p (l ++ [x]) i =
      if p x then some (i + l.length) else none := by
  induction l generalizing i with
  | nil => simp [scanRows]
  | cons a l ih =>
    rw [List.cons_append, scanRows,
      if_neg (by rw [h a (List.mem_cons_self a l)]; simp),
      ih (fun r hr => h r (List.mem_cons_of_mem a hr))]
    by_cases hx : p x = true
    · rw [if_pos hx, if_pos hx]
      congr 1
      simp
      omega
    · rw [if_neg hx, if_neg hx]

theorem scanRows_some_spec {p : List String → Bool} :
    ∀ (l : List (List String)) (i j : Nat), scanRows p l i = some j →
      ∃ k, k < l.length ∧ j = i + k ∧ p (l.getD k []) = true ∧
        ∀ m, m < k → p (l.getD m []) = false := by
  intro l
  induction l with
  | nil => intro i j h; exact absurd h (by simp [scanRows])
  | cons a l ih =>
    intro i j h
    rw [scanRows] at h
    by_cases ha : p a = true
    · rw [if_pos ha] at h
      refine ⟨0, by simp, by simpa using h.symm, by simpa using ha, by omega⟩
    · rw [if_neg ha] at h
      obtain ⟨k, hk, hj, hpk, hearlier⟩ := ih (i + 1) j h
      refine ⟨k + 1, by simpa using hk, by omega, hpk, ?_⟩
      intro m hm
      cases m with
      | zero => simpa using ha
      | succ m => exact hearlier m (by omega)

theorem scanRows_set {p : List String → Bool} :
    ∀ (l : List (List String)) (i k : Nat) (v : List String),
      p (l.getD k []) = p v →
      scanRows p (l.set k v) i = scanRows p l i := by
  intro l
  induction l with
  | nil => intro i k v _; rfl
  | cons a l ih =>
    intro i k v hpv
    cases k with
    | zero =>
      show scanRows p (v :: l) i = scanRows p (a :: l) i
      rw [scanRows, scanRows]
      simp only [List.getD_cons_zero] at hpv
      rw [hpv]
    | succ k =>
      show scanRows p (a :: l.set k v) i = scanRows p (a :: l) i
      rw [scanRows, scanRows, ih (i + 1) k v (by simpa using hpv)]

theorem listIdxOfP_eq_none {p : String → Bool} :
    ∀ l : List String, listIdxOfP p l = none ↔ ∀ a ∈ l, p a = false := by
  intro l
  induction l with
  | nil => simp [listIdxOfP]
  | cons a l ih =>
    rw [listIdxOfP]
    by_cases ha : p a = true
    · rw [if_pos ha]
      constructor
      · intro h; exact absurd h (by simp)
      · intro h; rw [h a (List.mem_cons_self a l)] at ha; exact absurd ha (by simp)
    · rw [if_neg ha]
      constructor
      · intro h r hr
        rcases List.mem_cons.mp hr with h1 | h2
        · subst h1; simpa using ha
        · exact ih.mp (by simpa using h) r h2
      · intro h
        rw [ih.mpr (fun r hr => h r (List.mem_cons_of_mem a hr))]
        rfl

theorem listIdxOfP_some_spec {p : String → Bool} :
    ∀ (l : List String) (i : Nat), listIdxOfP p l = some i →
      i < l.length ∧ p (l.getD i "") = true := by
  intro l
  induction l with
  | nil => intro i h; exact absurd h (by simp [listIdxOfP])
  | cons a l ih =>
    intro i h
    rw [listIdxOfP] at h
    by_cases ha : p a = true
    · rw [if_pos ha] at h
      have : i = 0 := by simpa using h.symm
      subst this
      exact ⟨by simp, by simpa using ha⟩
    · rw [if_neg ha] at h
      cases hrec : listIdxOfP p l with
      | none => rw [hrec] at h; exact absurd h (by simp)
      | some j =>
        rw [hrec] at h
        have hij : i = j + 1 := by simpa using h.symm
        subst hij
        obtain ⟨h1, h2⟩ := ih j hrec
        exact ⟨by simpa using h1, by simpa using h2⟩

theorem listIdxOf_eq_none_iff (l : List String) (x : String) :
    listIdxOf l x = none ↔ x ∉ l := by
  unfold listIdxOf
  rw [listIdxOfP_eq_none]
  constructor
  · intro h hmem
    have := h x hmem
    simp at this
  · intro h a ha
    cases hax : a == x
    · rfl
    · rw [beq_iff_eq] at hax; subst hax; exact absurd ha h

theorem listIdxOf_append_self {l : List String} {x : String}
    (h : listIdxOf l x = none) : listIdxOf (l ++ [x]) x = some l.length := by
  unfold listIdxOf at *
  induction l with
  | nil => simp [listIdxOfP]
  | cons a l ih =>
    rw [listIdxOfP] at h
    by_cases ha : (a == x) = true
    · rw [if_pos ha] at h; exact absurd h (by simp)
    · rw [if_neg ha] at h
      rw [List.cons_append, listIdxOfP, if_neg ha,
        ih (by cases hrec : listIdxOfP (· == x) l with
          | none => rfl
          | some j => rw [hrec] at h; exact absurd h (by simp))]
      simp

theorem listIdxOf_append_of_some {l : List String} {x y : String} {i : Nat}
    (h : listIdxOf l x = some i) : listIdxOf (l ++ [y]) x = some i := by
  unfold listIdxOf at *
  induction l generalizing i with
  | nil => exact absurd h (by simp [listIdxOfP])
  | cons a l ih =>
    rw [listIdxOfP] at h
    rw [List.cons_append, listIdxOfP]
    by_cases ha : (a == x) = true
    · rw [if_pos ha] at h ⊢; exact h
    · rw [if_neg ha] at h ⊢
      cases hrec : listIdxOfP (· == x) l with
      | none => rw [hrec] at h; exact absurd h (by simp)
      | some j =>
        rw [hrec] at h
        rw [ih hrec]
        exact h

theorem lastIdxOfStrip_some_spec :
    ∀ (l : List String) (x : String) (i : Nat), lastIdxOfStrip l x = some i →
      i < l.length ∧ pyStrip (l.getD i "") = x := by
  intro l
  induction l with
  | nil => intro x i h; exact absurd h (by simp [lastIdxOfStrip])
  | cons a l ih =>
    intro x i h
    rw [lastIdxOfStrip] at h
    cases hrec : lastIdxOfStrip l x with
    | some j =>
      rw [hrec] at h
      have hij : i = j + 1 := by simpa using h.symm
      subst hij
      obtain ⟨h1, h2⟩ := ih x j hrec
      exact ⟨by simpa using h1, by simpa using h2⟩
    | none =>
      rw [hrec] at h
      by_cases ha : (pyStrip a == x) = true
      · rw [if_pos ha] at h
        have : i = 0 := by simpa using h.symm
        subst this
        exact ⟨by simp, by simpa [beq_iff_eq] using ha⟩
      · rw [if_neg ha] at h; exact absurd h (by simp)

/-! ### Lemmas: the grid -/

theorem dropWhile_append_of_all {α : Type} {p : α → Bool} :
    ∀ {l1 : List α} (l2 : List α), (∀ a ∈ l1, p a = true) →
      (l1 ++ l2).dropWhile p = l2.dropWhile p := by
  intro l1
  induction l1 with
  | nil => intro l2 _; rfl
  | cons a l ih =>
    intro l2 h
    rw [List.cons_append, List.dropWhile_cons, if_pos (h a (List.mem_cons_self a l))]
    exact ih l2 (fun b hb => h b (List.mem_cons_of_mem a hb))

theorem trimTrail_snoc {l : List String} {x : String} (hx : (x == "") = false) :
    trimTrail (l ++ [x]) = l ++ [x] := by
  unfold trimTrail
  rw [List.reverse_append, List.reverse_singleton, List.singleton_append,
    List.dropWhile_cons, if_neg (by rw [hx]; simp)]
  simp

theorem trimTrail_append_replicate (l : List String) (m : Nat) :
    trimTrail (l ++ List.replicate m "") = trimTrail l := by
  unfold trimTrail
  rw [List.reverse_append, dropWhile_append_of_all _ (by
    intro a ha
    rw [List.mem_reverse] at ha
    rw [beq_iff_eq]
    exact List.eq_of_mem_replicate ha)]

theorem exists_trimTrail_decomp (l : List String) :
    ∃ k, l = trimTrail l ++ List.replicate k "" := by
  refine ⟨(l.reverse.takeWhile (fun x => x == "")).length, ?_⟩
  unfold trimTrail
  have hsplit := List.takeWhile_append_dropWhile (p := fun x => x == "") (l := l.reverse)
  have htake : ∀ a ∈ l.reverse.takeWhile (fun x => x == ""), a = "" := by
    intro a ha
    have := List.mem_takeWhile_imp ha
    rwa [beq_iff_eq] at this
  have hrep : l.reverse.takeWhile (fun x => x == "") =
      List.replicate (l.reverse.takeWhile (fun x => x == "")).length "" :=
    List.eq_replicate_of_mem htake
  calc l = l.reverse.reverse := by rw [List.reverse_reverse]
    _ = ((l.reverse.takeWhile (fun x => x == "")) ++
        (l.reverse.dropWhile (fun x => x == ""))).reverse := by rw [hsplit]
    _ = (l.reverse.dropWhile (fun x => x == "")).reverse ++
        (l.reverse.takeWhile (fun x => x == "")).reverse := by rw [List.reverse_append]
    _ = _ := by
        rw [hrep]
        congr 1
        rw [List.reverse_replicate]
        simp

theorem getRow_padGrid (g : Grid) (r r' : Nat) :
    getRow (padGrid g r) r' = getRow g r' := by
  unfold getRow padGrid
  by_cases h : r' - 1 < g.length
  · exact getD_append_left g _ _ [] h
  · rw [getD_ge_length g _ [] (by omega)]
    by_cases h2 : r' - 1 < g.length + (r - g.length)
    · have : r' - 1 = g.length + (r' - 1 - g.length) := by omega
      rw [this, getD_append_right, getD_replicate_own]
      by_cases h3 : r' - 1 - g.length < r - g.length
      · rw [if_pos h3]
      · rw [if_neg h3]
    · rw [getD_ge_length _ _ [] (by simp; omega)]

theorem getRow_updateCell_self (g : Grid) (r c : Nat) (v : String)
    (hr : 1 ≤ r) : getRow (updateCell g r c v) r = setCellRow (getRow g r) c v := by
  unfold updateCell
  show (((padGrid g r).set (r - 1) (setCellRow (getRow g r) c v)).getD (r - 1) []) = _
  rw [getD_set_self]
  unfold padGrid
  rw [List.length_append, List.length_replicate]
  omega

theorem getRow_updateCell_ne (g : Grid) (r c : Nat) (v : String) (r' : Nat)
    (hr : 1 ≤ r) (hr' : 1 ≤ r') (hne : r' ≠ r) :
    getRow (updateCell g r c v) r' = getRow g r' := by
  unfold updateCell
  show (((padGrid g r).set (r - 1) (setCellRow (getRow g r) c v)).getD (r' - 1) []) = _
  rw [getD_set_ne _ _ _ _ _ (by omega)]
  exact getRow_padGrid g r r'

theorem getD_setCellRow_self (row : List String) (c : Nat) (v : String)
    (hc : 1 ≤ c) : (setCellRow row c v).getD (c - 1) "" = v := by
  unfold setCellRow
  rw [getD_set_self]
  unfold padList
  rw [List.length_append, List.length_replicate]
  omega

theorem getD_setCellRow_ne (row : List String) (c : Nat) (v : String) (j : Nat)
    (hne : j ≠ c - 1) : (setCellRow row c v).getD j "" = row.getD j "" := by
  unfold setCellRow
  rw [getD_set_ne _ _ _ _ _ (fun h => hne h.symm), getD_padList]

theorem getCell_updateCell_self (g : Grid) (r c : Nat) (v : String)
    (hr : 1 ≤ r) (hc : 1 ≤ c) : getCell (updateCell g r c v) r c = v := by
  unfold getCell
  rw [getRow_updateCell_self g r c v hr, getD_setCellRow_self _ _ _ hc]

theorem getCell_updateCell_row_ne (g : Grid) (r c : Nat) (v : String)
    (r' c' : Nat) (hr : 1 ≤ r) (hr' : 1 ≤ r') (hne : r' ≠ r) :
    getCell (updateCell g r c v) r' c' = getCell g r' c' := by
  unfold getCell
  rw [getRow_updateCell_ne g r c v r' hr hr' hne]

theorem getCell_updateCell_col_ne (g : Grid) (r c : Nat) (v : String)
    (c' : Nat) (hr : 1 ≤ r) (hne : c' - 1 ≠ c - 1) :
    getCell (updateCell g r c v) r c' = getCell g r c' := by
  unfold getCell
  rw [getRow_updateCell_self g r c v hr, getD_setCellRow_ne _ _ _ _ hne]

theorem getRow_append_of_lt (g : Grid) (row : List String) (r : Nat)
    (h : r - 1 < g.length) : getRow (g ++ [row]) r = getRow g r := by
  unfold getRow
  exact getD_append_left g [row] _ [] h

theorem getRow_append_last (g : Grid) (row : List String) :
    getRow (g ++ [row]) (g.length + 1) = row := by
  unfold getRow
  have : g.length + 1 - 1 = g.length + 0 := by omega
  rw [this, getD_append_right]
  rfl

theorem drop_one_append (g : Grid) (row : List String) (h : g ≠ []) :
    (g ++ [row]).drop 1 = g.drop 1 ++ [row] := by
  cases g with
  | nil => exact absurd rfl h
  | cons a g => rfl

theorem drop_one_updateCell_row1 (g : Grid) (c : Nat) (v : String) :
    (updateCell g 1 c v).drop 1 = g.drop 1 := by
  unfold updateCell padGrid
  cases g with
  | nil => simp
  | cons a g => simp

theorem rowValues1_append (g : Grid) (row : List String) (h : g ≠ []) :
    rowValues1 (g ++ [row]) = rowValues1 g := by
  unfold rowValues1
  congr 1
  unfold getRow
  cases g with
  | nil => exact absurd rfl h
  | cons a g => rfl

theorem rowValues1_updateCell_ge2 (g : Grid) (r c : Nat) (v : String)
    (hr : 2 ≤ r) : rowValues1 (updateCell g r c v) = rowValues1 g := by
  unfold rowValues1
  congr 1
  exact getRow_updateCell_ne g r c v 1 (by omega) (by omega) (by omega)

theorem getRow_drop (g : Grid) (r : Nat) (hr : 2 ≤ r) :
    (g.drop 1).getD (r - 2) [] = getRow g r := by
  unfold getRow
  cases g with
  | nil => simp
  | cons a g =>
    show g.getD (r - 2) [] = (a :: g).getD (r - 1) []
    have : r - 1 = (r - 2) + 1 := by omega
    rw [this]
    rfl

/-- Creating a header cell one past the trimmed header row extends the header
row by exactly that label. -/
theorem rowValues1_create (g : Grid) (lbl : String) (hlbl : (lbl == "") = false) :
    rowValues1 (updateCell g 1 ((rowValues1 g).length + 1) lbl) =
      rowValues1 g ++ [lbl] := by
  obtain ⟨k, hk⟩ := exists_trimTrail_decomp (getRow g 1)
  set hdrs := rowValues1 g with hh
  have hrow1 : getRow g 1 = hdrs ++ List.replicate k "" := hk
  unfold rowValues1
  rw [getRow_updateCell_self g 1 _ lbl (by omega)]
  unfold setCellRow
  rw [hrow1]
  cases k with
  | zero =>
    rw [List.replicate, List.append_nil]
    unfold padList
    have hlen : (hdrs.length + 1) - hdrs.length = 1 := by omega
    rw [hlen]
    have : hdrs.length + 1 - 1 = hdrs.length + 0 := by omega
    rw [this, set_append_right]
    show trimTrail (hdrs ++ [lbl]) = hdrs ++ [lbl]
    exact trimTrail_snoc hlbl
  | succ k =>
    rw [padList_of_le (by rw [List.length_append, List.length_replicate]; omega)]
    have : hdrs.length + 1 - 1 = hdrs.length + 0 := by omega
    rw [this, set_append_right]
    show trimTrail (hdrs ++ (List.replicate (k + 1) "").set 0 lbl) = hdrs ++ [lbl]
    rw [List.replicate, List.set_cons_zero]
    have : hdrs ++ lbl :: List.replicate k "" =
        (hdrs ++ [lbl]) ++ List.replicate k "" := by simp
    rw [this, trimTrail_append_replicate]
    exact trimTrail_snoc hlbl

/-! ### Run lemmas: row resolvers on a healthy store -/

theorem samboFOCAct_found {u d w : String} {g : Grid} {i : Nat}
    (h : samboFindRow u d g = some i) :
    samboFindOrCreateActivityRow noFault u d w g = .ok (i, g) := by
  unfold samboFindOrCreateActivityRow stGetAll
  simp [noFault, h]

theorem samboFOCAct_none {u d w : String} {g : Grid}
    (h : samboFindRow u d g = none) :
    samboFindOrCreateActivityRow noFault u d w g =
      .ok (g.length + 1, g ++ [samboActivityNewRow u d w]) := by
  unfold samboFindOrCreateActivityRow stGetAll stAppendRow
  simp [noFault, h]

theorem samboRowPred_newRowAct (u d w : String) :
    samboRowPred u d (samboActivityNewRow u d w) = true := by
  unfold samboRowPred samboActivityNewRow
  simp

theorem samboFindRow_append_self {u d w : String} {g : Grid} (hg : g ≠ [])
    (h : samboFindRow u d g = none) :
    samboFindRow u d (g ++ [samboActivityNewRow u d w]) = some (g.length + 1) := by
  unfold samboFindRow at *
  rw [drop_one_append g _ hg,
    scanRows_append_none ((scanRows_eq_none _ 2).mp h) _ 2,
    if_pos (samboRowPred_newRowAct u d w)]
  congr 1
  rw [List.length_drop]
  have : 1 ≤ g.length := by cases g with | nil => exact absurd rfl hg | cons a l => simp
  omega

/-- `sambo_core`'s activity row resolver called twice: the second call finds
the first call's row, appends nothing, and preserves row-uniqueness. -/
theorem samboRowResolver_idem (g : Grid) (u d w : String) (hg : g ≠ []) :
    ∃ r1 g1, samboFindOrCreateActivityRow noFault u d w g = .ok (r1, g1) ∧
      samboFindOrCreateActivityRow noFault u d w g1 = .ok (r1, g1) ∧
      g1.length ≤ g.length + 1 ∧
      (samboMatchCount u d g ≤ 1 → samboMatchCount u d g1 ≤ 1) := by
  cases hfind : samboFindRow u d g with
  | some i =>
    exact ⟨i, g, samboFOCAct_found hfind, samboFOCAct_found hfind, by omega,
      fun h => h⟩
  | none =>
    refine ⟨g.length + 1, g ++ [samboActivityNewRow u d w], samboFOCAct_none hfind,
      samboFOCAct_found (samboFindRow_append_self hg hfind), by simp, ?_⟩
    intro _
    unfold samboMatchCount
    rw [drop_one_append g _ hg, List.countP_append]
    have hzero : (g.drop 1).countP (samboRowPred u d) = 0 :=
      List.countP_eq_zero.mpr (by
        intro a ha
        have hfalse := (scanRows_eq_none (p := samboRowPred u d) _ 2).mp
          (by unfold samboFindRow at hfind; exact hfind) a ha
        rw [hfalse]
        simp)
    rw [hzero]
    simp [samboRowPred_newRowAct u d w]

theorem stGetAll_noFault (g : Grid) : stGetAll noFault g = .ok (g, g) := rfl

theorem stRowValues_noFault (g : Grid) :
    stRowValues noFault g = .ok (rowValues1 g, g) := rfl

theorem stCell_noFault (r c : Nat) (g : Grid) :
    stCell noFault r c g = .ok (getCell g r c, g) := rfl

theorem stSetCell_noFault (r c : Nat) (v : String) (g : Grid) :
    stSetCell noFault r c v g = .ok ((), updateCell g r c v) := rfl

theorem stAppendRow_noFault (row : List String) (g : Grid) :
    stAppendRow noFault row g = .ok ((), g ++ [row]) := rfl

theorem lastIdxOfStrip_ne {l : List String} {x y : String} {i j : Nat}
    (hx : lastIdxOfStrip l x = some i) (hy : lastIdxOfStrip l y = some j)
    (hxy : x ≠ y) : i ≠ j := by
  intro h
  subst h
  obtain ⟨_, hx2⟩ := lastIdxOfStrip_some_spec l x i hx
  obtain ⟨_, hy2⟩ := lastIdxOfStrip_some_spec l y i hy
  exact hxy (hx2 ▸ hy2 ▸ rfl)

/-- `bot.py`'s activity row resolver called twice on a healthy store with the
required columns present: the second call finds the first call's row, appends
nothing, and preserves row-uniqueness for the pair. -/
theorem botRowResolver_idem (g : Grid) (u d w : String) (hg : g ≠ [])
    (hu : pyStrip u = u) (hd : pyStrip d = d)
    {ucol dcol wcol : Nat}
    (hU : lastIdxOfStrip (rowValues1 g) "User ID" = some ucol)
    (hD : lastIdxOfStrip (rowValues1 g) "Date" = some dcol)
    (hW : lastIdxOfStrip (rowValues1 g) "Week Number" = some wcol) :
    ∃ r1 g1, botFindOrCreateActivityRow noFault u d w g = (some r1, g1) ∧
      botFindOrCreateActivityRow noFault u d w g1 = (some r1, g1) ∧
      g1.length ≤ g.length + 1 ∧
      (botMatchCount ucol dcol u d g ≤ 1 → botMatchCount ucol dcol u d g1 ≤ 1) := by
  have hud : ucol ≠ dcol := lastIdxOfStrip_ne hU hD (by decide)
  have huw : ucol ≠ wcol := lastIdxOfStrip_ne hU hW (by decide)
  have hdw : dcol ≠ wcol := lastIdxOfStrip_ne hD hW (by decide)
  have hult : ucol < (rowValues1 g).length :=
    (lastIdxOfStrip_some_spec _ _ _ hU).1
  have hdlt : dcol < (rowValues1 g).length :=
    (lastIdxOfStrip_some_spec _ _ _ hD).1
  cases hscan : scanRows (fun row =>
      (pyStrip (row.getD ucol "") == pyStrip u) &&
      (pyStrip (row.getD dcol "") == pyStrip d)) (g.drop 1) 2 with
  | some i =>
    refine ⟨i, g, ?_, ?_, by omega, fun h => h⟩ <;>
    · unfold botFindOrCreateActivityRow botActRowBody
      simp only [stGetAll_noFault, stRowValues_noFault, hU, hD, hW, hscan]
  | none =>
    set base := (((List.replicate (rowValues1 g).length "").set ucol
      (pyStrip u)).set dcol (pyStrip d)).set wcol w with hbase
    have hbaseu : base.getD ucol "" = pyStrip u := by
      rw [hbase, getD_set_ne _ _ _ _ _ (fun h => huw h.symm),
        getD_set_ne _ _ _ _ _ (fun h => hud h.symm),
        getD_set_self _ _ _ _ (by rw [List.length_replicate]; exact hult)]
    have hbased : base.getD dcol "" = pyStrip d := by
      rw [hbase, getD_set_ne _ _ _ _ _ (fun h => hdw h.symm),
        getD_set_self _ _ _ _ (by rw [List.length_set, List.length_replicate]; exact hdlt)]
    have hrow : ∀ newRow : List String,
        newRow.getD ucol "" = pyStrip u → newRow.getD dcol "" = pyStrip d →
        (fun row => (pyStrip (row.getD ucol "") == pyStrip u) &&
          (pyStrip (row.getD dcol "") == pyStrip d)) newRow = true := by
      intro newRow h1 h2
      simp only [h1, h2, hu, hd]
      simp
    have hlen1 : 1 ≤ g.length := by
      cases g with | nil => exact absurd rfl hg | cons a l => simp
    have main : ∀ newRow : List String,
        newRow.getD ucol "" = pyStrip u → newRow.getD dcol "" = pyStrip d →
        (botFindOrCreateActivityRow noFault u d w (g ++ [newRow]) =
            (some (g.length + 1), g ++ [newRow]) ∧
          (botMatchCount ucol dcol u d g ≤ 1 →
            botMatchCount ucol dcol u d (g ++ [newRow]) ≤ 1)) := by
      intro newRow h1 h2
      constructor
      · unfold botFindOrCreateActivityRow botActRowBody
        have hrv : rowValues1 (g ++ [newRow]) = rowValues1 g :=
          rowValues1_append g _ hg
        have hscan2 : scanRows (fun row =>
            (pyStrip (row.getD ucol "") == pyStrip u) &&
            (pyStrip (row.getD dcol "") == pyStrip d)) ((g ++ [newRow]).drop 1) 2 =
            some (g.length + 1) := by
          rw [drop_one_append g _ hg,
            scanRows_append_none ((scanRows_eq_none _ 2).mp hscan) _ 2,
            if_pos (hrow newRow h1 h2), List.length_drop]
          congr 1
          omega
        simp only [stGetAll_noFault, stRowValues_noFault, hrv, hU, hD, hW, hscan2]
      · intro _
        unfold botMatchCount
        rw [drop_one_append g _ hg, List.countP_append]
        have hzero : (g.drop 1).countP (fun row =>
            (pyStrip (row.getD ucol "") == u) && (pyStrip (row.getD dcol "") == d)) = 0 :=
          List.countP_eq_zero.mpr (by
            intro a ha
            have hfalse := (scanRows_eq_none (p := fun row =>
              (pyStrip (row.getD ucol "") == pyStrip u) &&
              (pyStrip (row.getD dcol "") == pyStrip d)) _ 2).mp hscan a ha
            rw [hu, hd] at hfalse
            rw [hfalse]
            simp)
        rw [hzero]
        have hnewtrue : ((pyStrip (newRow.getD ucol "") == u) &&
            (pyStrip (newRow.getD dcol "") == d)) = true := by
          have := hrow newRow h1 h2
          rw [hu, hd] at this
          exact this
        simp only [List.countP_cons, List.countP_nil]
        rw [hnewtrue]
        simp
    cases hG : lastIdxOfStrip (rowValues1 g) "Goals" with
    | some gcol =>
      have hug : ucol ≠ gcol := lastIdxOfStrip_ne hU hG (by decide)
      have hdg : dcol ≠ gcol := lastIdxOfStrip_ne hD hG (by decide)
      refine ⟨g.length + 1, g ++ [base.set gcol ""], ?_, ?_, by simp, ?_⟩
      · unfold botFindOrCreateActivityRow botActRowBody
        simp only [stGetAll_noFault, stRowValues_noFault, stAppendRow_noFault,
          hU, hD, hW, hscan, hG, List.length_append, List.length_singleton]
      · exact (main _ (by rw [getD_set_ne _ _ _ _ _ (fun h => hug h.symm)]; exact hbaseu)
          (by rw [getD_set_ne _ _ _ _ _ (fun h => hdg h.symm)]; exact hbased)).1
      · exact (main _ (by rw [getD_set_ne _ _ _ _ _ (fun h => hug h.symm)]; exact hbaseu)
          (by rw [getD_set_ne _ _ _ _ _ (fun h => hdg h.symm)]; exact hbased)).2
    | none =>
      refine ⟨g.length + 1, g ++ [base], ?_, ?_, by simp, ?_⟩
      · unfold botFindOrCreateActivityRow botActRowBody
        simp only [stGetAll_noFault, stRowValues_noFault, stAppendRow_noFault,
          hU, hD, hW, hscan, hG, List.length_append, List.length_singleton]
      · exact (main base hbaseu hbased).1
      · exact (main base hbaseu hbased).2

/-- Claim C1: for every store state holding a header row, and every
(caller, date) pair given in normalized (stripped) form, both variants' row
resolvers scan the existing data rows before appending, append at most one
row per call, and a second call returns the row found or created by the
first without appending again — so the store keeps at most one row per
(caller, date) pair.  (`bot.py`'s resolver additionally requires its
"User ID"/"Date"/"Week Number" columns to be present, else it resolves no
row at all.) -/
theorem claim_C1 (g : Grid) (u d w : String) (hg : g ≠ [])
    (hu : pyStrip u = u) (hd : pyStrip d = d)
    (ucol dcol wcol : Nat)
    (hU : lastIdxOfStrip (rowValues1 g) "User ID" = some ucol)
    (hD : lastIdxOfStrip (rowValues1 g) "Date" = some dcol)
    (hW : lastIdxOfStrip (rowValues1 g) "Week Number" = some wcol) :
    (∃ r1 g1, samboFindOrCreateActivityRow noFault u d w g = .ok (r1, g1) ∧
      samboFindOrCreateActivityRow noFault u d w g1 = .ok (r1, g1) ∧
      g1.length ≤ g.length + 1 ∧
      (samboMatchCount u d g ≤ 1 → samboMatchCount u d g1 ≤ 1)) ∧
    (∃ r1 g1, botFindOrCreateActivityRow noFault u d w g = (some r1, g1) ∧
      botFindOrCreateActivityRow noFault u d w g1 = (some r1, g1) ∧
      g1.length ≤ g.length + 1 ∧
      (botMatchCount ucol dcol u d g ≤ 1 → botMatchCount ucol dcol u d g1 ≤ 1)) :=
  ⟨samboRowResolver_idem g u d w hg,
    botRowResolver_idem g u d w hg hu hd hU hD hW⟩

theorem claim_C1_witness :
    (∃ r1 g1, samboFindOrCreateActivityRow noFault "42" "2024-01-08" "2024-01-08"
        actHeaderFull = .ok (r1, g1) ∧
      samboFindOrCreateActivityRow noFault "42" "2024-01-08" "2024-01-08" g1 =
        .ok (r1, g1) ∧
      g1.length ≤ actHeaderFull.length + 1 ∧
      (samboMatchCount "42" "2024-01-08" actHeaderFull ≤ 1 →
        samboMatchCount "42" "2024-01-08" g1 ≤ 1)) ∧
    (∃ r1 g1, botFindOrCreateActivityRow noFault "42" "2024-01-08" "2024-01-08"
        actHeaderFull = (some r1, g1) ∧
      botFindOrCreateActivityRow noFault "42" "2024-01-08" "2024-01-08" g1 =
        (some r1, g1) ∧
      g1.length ≤ actHeaderFull.length + 1 ∧
      (botMatchCount 0 1 "42" "2024-01-08" actHeaderFull ≤ 1 →
        botMatchCount 0 1 "42" "2024-01-08" g1 ≤ 1)) :=
  claim_C1 actHeaderFull "42" "2024-01-08" "2024-01-08" (by decide) (by decide)
    (by decide) 0 1 2 (by decide) (by decide) (by decide)

/-- Claim C10: a validation failure — habit id outside 1..5, language code
outside ch/he/ta, or an empty / first-character-invalid consumption text —
returns `(false, message)` before any store access: the result and the grid
are the same for *every* fault configuration, including a store whose every
primitive raises. -/
theorem claim_C10 (f : Fault) (g : Grid) (u today week time : String) :
    (∀ habitId : Nat, ¬(1 ≤ habitId ∧ habitId ≤ 5) →
      samboRecordActivity f u habitId today week time g =
        .ok ((false, "Invalid habit number. Use 1-5."), g)) ∧
    (∀ code : String, code ≠ "ch" → code ≠ "he" → code ≠ "ta" →
      samboRecordLanguage f u code today week time g =
        .ok ((false, "Invalid language code. Use: ch, he, ta"), g)) ∧
    (∀ text : String, pySplit (pyLower (pyStrip text)) = [] →
      botRecordConsumption f u text today week g =
        ((false, "Invalid format. Use: x, xx, xxx, y, z"), g)) ∧
    (∀ (text : String) (p0 : String) (rest : List String),
      pySplit (pyLower (pyStrip text)) = p0 :: rest →
      (p0.data.headD ' ' == 'x' || p0.data.headD ' ' == 'y' ||
        p0.data.headD ' ' == 'z') = false →
      botRecordConsumption f u text today week g =
        ((false, "Start with x, y, or z"), g)) := by
  refine ⟨?_, ?_, ?_, ?_⟩
  · intro habitId hout
    have hmap : samboHabitMap habitId = none := by
      rcases habitId with _|_|_|_|_|_|n
      · rfl
      · exact absurd ⟨by omega, by omega⟩ hout
      · exact absurd ⟨by omega, by omega⟩ hout
      · exact absurd ⟨by omega, by omega⟩ hout
      · exact absurd ⟨by omega, by omega⟩ hout
      · exact absurd ⟨by omega, by omega⟩ hout
      · rfl
    unfold samboRecordActivity
    rw [hmap]
  · intro code h1 h2 h3
    have hmap : langMap code = none := by
      unfold langMap
      rw [if_neg (by simp [h1]), if_neg (by simp [h2]), if_neg (by simp [h3])]
    unfold samboRecordLanguage
    rw [hmap]
  · intro text hsplit
    unfold botRecordConsumption botConsBody
    rw [hsplit]
  · intro text p0 rest hsplit hxyz
    unfold botRecordConsumption botConsBody
    rw [hsplit]
    simp only [hxyz]
    by_cases hp0 : (p0 == "") = true
    · rw [show (p0 == "" || !false) = true by rw [hp0]; rfl]
      rfl
    · rw [show (p0 == "") = false by simpa using hp0]
      rfl

theorem claim_C10_witness :
    (∀ habitId : Nat, ¬(1 ≤ habitId ∧ habitId ≤ 5) →
      samboRecordActivity faultAll "42" habitId "d" "w" "t" actHeaderFull =
        .ok ((false, "Invalid habit number. Use 1-5."), actHeaderFull)) ∧
    (∀ code : String, code ≠ "ch" → code ≠ "he" → code ≠ "ta" →
      samboRecordLanguage faultAll "42" code "d" "w" "t" actHeaderFull =
        .ok ((false, "Invalid language code. Use: ch, he, ta"), actHeaderFull)) ∧
    (∀ text : String, pySplit (pyLower (pyStrip text)) = [] →
      botRecordConsumption faultAll "42" text "d" "w" actHeaderFull =
        ((false, "Invalid format. Use: x, xx, xxx, y, z"), actHeaderFull)) ∧
    (∀ (text : String) (p0 : String) (rest : List String),
      pySplit (pyLower (pyStrip text)) = p0 :: rest →
      (p0.data.headD ' ' == 'x' || p0.data.headD ' ' == 'y' ||
        p0.data.headD ' ' == 'z') = false →
      botRecordConsumption faultAll "42" text "d" "w" actHeaderFull =
        ((false, "Start with x, y, or z"), actHeaderFull)) :=
  claim_C10 faultAll actHeaderFull "42" "d" "w" "t"

theorem stGetAll_fault (g : Grid) :
    stGetAll faultGetAll g = .error (.apiError, g) := rfl

/-- Claim C9 counterexample: `sambo_core.record_activity` has no exception
handler — a backing-store failure during the row lookup propagates to the
caller as a raw exception instead of an "error recording" reply. -/
theorem claim_C9_counterexample :
    samboRecordActivity faultGetAll "42" 1 "2024-01-08" "2024-01-08" "12:00"
      actHeaderFull = .error (.apiError, actHeaderFull) := by rfl

/-- Claim C9 as amended: `bot.py`'s recorders catch every backing-store error
(replying "Failed to create … row" when the failure strikes inside the row
helper, which has its own handler, and the generic "Error recording …"
otherwise), while `sambo_core.py`'s recorders have no handler at all and
propagate the store exception raw. -/
theorem claim_C9 :
    (∀ (g : Grid) (u today week time : String) (habitId : Nat)
      (pr : String × String), samboHabitMap habitId = some pr →
      samboRecordActivity faultGetAll u habitId today week time g =
        .error (.apiError, g)) ∧
    (∀ (g : Grid) (u code today week time : String) (pr : String × String),
      langMap code = some pr →
      samboRecordLanguage faultGetAll u code today week time g =
        .error (.apiError, g)) ∧
    (∀ (g : Grid) (u today week : String),
      samboRecordConsumption faultGetAll u "x" today week g =
        .error (.apiError, g)) ∧
    (∀ (g : Grid) (u today week time : String) (habitId : Nat)
      (pr : String × String), botHabitMap habitId = some pr →
      botRecordActivity faultGetAll u habitId today week time g =
        ((false, "Failed to create activity row"), g)) ∧
    (botActBody faultCell "42" 1 "2024-01-08" "2024-01-08" "12:00"
        [["User ID", "Date", "Week Number", "Prayer"],
          ["42", "2024-01-08", "w", ""]] =
      .error (.apiError,
        [["User ID", "Date", "Week Number", "Prayer"],
          ["42", "2024-01-08", "w", ""]]) ∧
      botRecordActivity faultCell "42" 1 "2024-01-08" "2024-01-08" "12:00"
        [["User ID", "Date", "Week Number", "Prayer"],
          ["42", "2024-01-08", "w", ""]] =
        ((false, "Error recording habit"),
          [["User ID", "Date", "Week Number", "Prayer"],
            ["42", "2024-01-08", "w", ""]])) ∧
    (botRecordConsumption faultCell "42" "x" "2024-01-08" "w"
        [["User ID", "Date", "Coffee (x)", "Coffee Cost", "Week Number"],
          ["42", "2024-01-08", "0", "0", "w"]] =
      ((false, "Error recording consumption"),
        [["User ID", "Date", "Coffee (x)", "Coffee Cost", "Week Number"],
          ["42", "2024-01-08", "0", "0", "w"]])) ∧
    (botRecordLanguage faultCell "42" "ch" "2024-01-08" "w" "12:00"
        [["User ID", "Date", "Chinese (ch)"], ["42", "2024-01-08", "0"]] =
      ((false, "Error recording language"),
        [["User ID", "Date", "Chinese (ch)"], ["42", "2024-01-08", "0"]])) := by
  refine ⟨?_, ?_, ?_, ?_, by constructor <;> rfl, by rfl, by rfl⟩
  · intro g u today week time habitId pr hmap
    unfold samboRecordActivity samboFindOrCreateActivityRow
    rw [hmap, stGetAll_fault]
  · intro g u code today week time pr hmap
    unfold samboRecordLanguage samboFindOrCreateLanguageRow
    rw [hmap, stGetAll_fault]
  · intro g u today week
    rfl
  · intro g u today week time habitId pr hmap
    unfold botRecordActivity botActBody botFindOrCreateActivityRow botActRowBody
    rw [hmap, stGetAll_fault]

theorem claim_C9_witness :
    samboRecordActivity faultGetAll "7" 2 "d" "w" "t" [] =
      .error (.apiError, []) ∧
    botRecordActivity faultGetAll "7" 2 "d" "w" "t" [] =
      ((false, "Failed to create activity row"), []) :=
  ⟨claim_C9.1 [] "7" "d" "w" "t" 2 ("Qi Gong", "Qi Gong routine") rfl,
    claim_C9.2.2.2.1 [] "7" "d" "w" "t" 2 ("Qi Gong", "Qi Gong routine") rfl⟩

/-- Claim C8 counterexample: the dispatcher does *not* compare identifiers as
strings.  With authorized identifier "042" and inbound caller 42, the string
forms differ ("42" vs "042"), yet `handle_activity` authorizes the caller via
`int("042") == 42`, invokes the recorder, and mutates the store — under a
string comparison this caller would have been denied. -/
theorem claim_C8_counterexample :
    printInt 42 ≠ "042" ∧
    handleActivity noFault "042" 42 1 "2024-01-08" "2024-01-08" "12:00"
        actHeaderFull =
      .ok ("✓ Prayer with first water recorded at 12:00!",
        [["User ID", "Date", "Week Number", "Prayer"],
          ["42", "2024-01-08", "2024-01-08", "✓"]]) ∧
    ([["User ID", "Date", "Week Number", "Prayer"],
      ["42", "2024-01-08", "2024-01-08", "✓"]] : Grid) ≠ actHeaderFull :=
  ⟨by decide, by rfl, by decide⟩

/-- Claim C8 as amended: the dispatcher compares the inbound caller id to
`int(...)` of the configured identifier as *integers*; on integer mismatch it
replies with the fixed denial message and performs no store access at all
(the grid is returned untouched under every fault configuration, so no
recorder, read, or write ran). -/
theorem claim_C8 (f : Fault) (g : Grid) (cfg : String) (caller n : Int)
    (hcfg : pyInt cfg = .ok n) (hne : caller ≠ n) :
    (∀ (habitId : Nat) (today week time : String),
      handleActivity f cfg caller habitId today week time g =
        .ok (denialMsg, g)) ∧
    (∀ text today week time : String,
      handleMessage f cfg caller text today week time g =
        .ok (denialMsg, g)) := by
  have hb : (caller == n) = false := beq_eq_false_iff_ne.mpr hne
  constructor
  · intro habitId today week time
    unfold handleActivity
    simp only [hcfg, hb]
    simp
  · intro text today week time
    unfold handleMessage
    simp only [hcfg, hb]
    simp

theorem claim_C8_witness :
    (∀ (habitId : Nat) (today week time : String),
      handleActivity noFault "42" 99 habitId today week time actHeaderFull =
        .ok (denialMsg, actHeaderFull)) ∧
    (∀ text today week time : String,
      handleMessage noFault "42" 99 text today week time actHeaderFull =
        .ok (denialMsg, actHeaderFull)) :=
  claim_C8 noFault actHeaderFull "42" 99 42 (by rfl) (by decide)

/-- Claim C6: the header-resolution idiom is idempotent after first creation.
Resolving a (non-blank) label twice — no matter which recorder performs each
resolution, since the resolver reads only the header row — returns the same
index the second time without touching the store, and the header row ends up
holding the label exactly `max (previous count) 1` times: a label can never be
duplicated by repeated resolution. -/
theorem claim_C6 (g : Grid) (lbl : String) (hlbl : (lbl == "") = false) :
    ∃ c1 g1, resolveColumn noFault lbl g = .ok (c1, g1) ∧
      resolveColumn noFault lbl g1 = .ok (c1, g1) ∧
      (rowValues1 g1).count lbl = max ((rowValues1 g).count lbl) 1 := by
  cases hidx : listIdxOf (rowValues1 g) lbl with
  | some i =>
    refine ⟨i + 1, g, ?_, ?_, ?_⟩
    · unfold resolveColumn
      simp only [stRowValues_noFault, hidx]
    · unfold resolveColumn
      simp only [stRowValues_noFault, hidx]
    · have hmem : lbl ∈ rowValues1 g := by
        by_contra hnot
        rw [(listIdxOf_eq_none_iff _ _).mpr hnot] at hidx
        exact absurd hidx (by simp)
      have : 1 ≤ (rowValues1 g).count lbl := List.count_pos_iff.mpr hmem
      omega
  | none =>
    refine ⟨(rowValues1 g).length + 1,
      updateCell g 1 ((rowValues1 g).length + 1) lbl, ?_, ?_, ?_⟩
    · unfold resolveColumn
      simp only [stRowValues_noFault, hidx, stSetCell_noFault]
    · unfold resolveColumn
      have hext := rowValues1_create g lbl hlbl
      have hfound := listIdxOf_append_self hidx
      simp only [stRowValues_noFault, hext, hfound]
    · rw [rowValues1_create g lbl hlbl, List.count_append,
        List.count_eq_zero_of_not_mem ((listIdxOf_eq_none_iff _ _).mp hidx)]
      simp

theorem claim_C6_witness :
    ∃ c1 g1, resolveColumn noFault "Prayer" actHeaderBare = .ok (c1, g1) ∧
      resolveColumn noFault "Prayer" g1 = .ok (c1, g1) ∧
      (rowValues1 g1).count "Prayer" =
        max ((rowValues1 actHeaderBare).count "Prayer") 1 :=
  claim_C6 actHeaderBare "Prayer" (by decide)

/-! ### Lemmas: recorder stability -/

theorem resolveColumn_found {g : Grid} {lbl : String} {i : Nat}
    (h : listIdxOf (rowValues1 g) lbl = some i) :
    resolveColumn noFault lbl g = .ok (i + 1, g) := by
  unfold resolveColumn
  simp only [stRowValues_noFault, h]

theorem resolveColumn_create {g : Grid} {lbl : String}
    (h : listIdxOf (rowValues1 g) lbl = none) :
    resolveColumn noFault lbl g =
      .ok ((rowValues1 g).length + 1,
        updateCell g 1 ((rowValues1 g).length + 1) lbl) := by
  unfold resolveColumn
  simp only [stRowValues_noFault, h, stSetCell_noFault]

theorem padGrid_of_le {g : Grid} {r : Nat} (h : r ≤ g.length) :
    padGrid g r = g := by
  unfold padGrid
  rw [Nat.sub_eq_zero_of_le h]
  simp

theorem drop_one_set (g : Grid) (j : Nat) (x : List String) (hj : 1 ≤ j) :
    (g.set j x).drop 1 = (g.drop 1).set (j - 1) x := by
  cases g with
  | nil => simp
  | cons a t =>
    cases j with
    | zero => omega
    | succ j => simp

theorem updateCell_drop_one (g : Grid) (r c : Nat) (v : String)
    (hr : 2 ≤ r) (hlen : r ≤ g.length) :
    (updateCell g r c v).drop 1 =
      (g.drop 1).set (r - 2) (setCellRow (getRow g r) c v) := by
  unfold updateCell
  rw [padGrid_of_le hlen, drop_one_set _ _ _ (by omega),
    show r - 1 - 1 = r - 2 by omega]

theorem length_setCellRow (row : List String) (c : Nat) (v : String) :
    (setCellRow row c v).length = max row.length c := by
  unfold setCellRow padList
  rw [List.length_set, List.length_append, List.length_replicate]
  omega

theorem samboRowPred_setCellRow {u d : String} {row : List String} {c : Nat}
    (v : String) (hc : 3 ≤ c) (hp : samboRowPred u d row = true) :
    samboRowPred u d (setCellRow row c v) = true := by
  unfold samboRowPred at *
  simp only [Bool.and_eq_true, decide_eq_true_eq] at hp ⊢
  obtain ⟨⟨h1, h2⟩, h3⟩ := hp
  refine ⟨⟨?_, ?_⟩, ?_⟩
  · rw [length_setCellRow]; omega
  · rw [getD_setCellRow_ne _ _ _ _ (by omega)]; exact h2
  · rw [getD_setCellRow_ne _ _ _ _ (by omega)]; exact h3

theorem samboFindRow_updateCell_row1 (g : Grid) (c : Nat) (v u d : String) :
    samboFindRow u d (updateCell g 1 c v) = samboFindRow u d g := by
  unfold samboFindRow
  rw [drop_one_updateCell_row1]

theorem samboFindRow_updateCell_stable {g : Grid} {u d : String} {r : Nat}
    (hr : samboFindRow u d g = some r) (c : Nat) (hc : 3 ≤ c) (v : String) :
    samboFindRow u d (updateCell g r c v) = some r := by
  unfold samboFindRow at *
  obtain ⟨k, hk, hrk, hpk, _⟩ := scanRows_some_spec _ 2 r hr
  have hlen : (g.drop 1).length = g.length - 1 := List.length_drop 1 g
  have hr2 : 2 ≤ r := by omega
  have hrle : r ≤ g.length := by omega
  rw [updateCell_drop_one g r c v hr2 hrle]
  have hgr : getRow g r = (g.drop 1).getD (r - 2) [] := (getRow_drop g r hr2).symm
  have hpred : samboRowPred u d ((g.drop 1).getD (r - 2) []) =
      samboRowPred u d (setCellRow (getRow g r) c v) := by
    have hpk2 : samboRowPred u d ((g.drop 1).getD (r - 2) []) = true := by
      have : r - 2 = k := by omega
      rw [this]; exact hpk
    rw [hpk2, samboRowPred_setCellRow v hc (hgr ▸ hpk2)]
  rw [scanRows_set _ _ _ _ hpred]
  exact hr

theorem pyStrip_checkMark_ne (t : String) :
    (pyStrip (checkMark t) == "") = false := by
  refine pyStrip_ne_empty (c := '✓') ?_ (by decide)
  show '✓' ∈ ("✓ (" ++ t ++ ")").data
  simp [String.data_append]

theorem samboHabitMap_col_ne_empty {habitId : Nat} {colName habitName : String}
    (h : samboHabitMap habitId = some (colName, habitName)) :
    (colName == "") = false := by
  rcases habitId with _|_|_|_|_|_|n
  · exact absurd h (by simp [samboHabitMap])
  · rw [show colName = "Prayer" from (congrArg Prod.fst (Option.some.inj h)).symm]; rfl
  · rw [show colName = "Qi Gong" from (congrArg Prod.fst (Option.some.inj h)).symm]; rfl
  · rw [show colName = "Ball" from (congrArg Prod.fst (Option.some.inj h)).symm]; rfl
  · rw [show colName = "Run/Stretch" from (congrArg Prod.fst (Option.some.inj h)).symm]
    rfl
  · rw [show colName = "Strength/Stretch" from
      (congrArg Prod.fst (Option.some.inj h)).symm]
    rfl
  · exact absurd h (by simp [samboHabitMap])

/-- `sambo_core.record_activity` run twice for the same (caller, habit, day):
when the resolved cell starts blank (and the habit column does not collide
with the identity columns), the first call records a checkmark and the second
call reports "already recorded" without changing the store. -/
theorem samboActivity_two_calls (g : Grid) (u : String) (habitId : Nat)
    (today week time : String) (colName habitName : String)
    (hg : g ≠ [])
    (hmap : samboHabitMap habitId = some (colName, habitName))
    (hcol : 3 ≤ samboColProbe g colName)
    (hblank : pyStrip (samboActivityProbe u today week colName g) = "") :
    ∃ g2, samboRecordActivity noFault u habitId today week time g =
        .ok ((true, "✓ " ++ habitName ++ " recorded at " ++ time ++ "!"), g2) ∧
      samboRecordActivity noFault u habitId today week time g2 =
        .ok ((false, habitName ++ " already recorded today"), g2) := by
  have hlen1 : 1 ≤ g.length := by
    cases g with | nil => exact absurd rfl hg | cons a l => simp
  -- row resolution
  have hrowpack : ∃ r g1,
      samboFindOrCreateActivityRow noFault u today week g = .ok (r, g1) ∧
      2 ≤ r ∧ samboFindRow u today g1 = some r ∧
      rowValues1 g1 = rowValues1 g := by
    cases hfind : samboFindRow u today g with
    | some i =>
      refine ⟨i, g, samboFOCAct_found hfind, ?_, hfind, rfl⟩
      have hsp := hfind
      unfold samboFindRow at hsp
      obtain ⟨k, _, hik, _, _⟩ := scanRows_some_spec _ 2 i hsp
      omega
    | none =>
      exact ⟨g.length + 1, g ++ [samboActivityNewRow u today week],
        samboFOCAct_none hfind, by omega,
        samboFindRow_append_self hg hfind, rowValues1_append g _ hg⟩
  obtain ⟨r, g1, hfoc, hr2, hfind1, hrv1⟩ := hrowpack
  -- column resolution on g1
  have hcolpack : ∃ cc gc, resolveColumn noFault colName g1 = .ok (cc, gc) ∧
      samboColProbe g colName = cc ∧
      listIdxOf (rowValues1 gc) colName = some (cc - 1) ∧
      samboFindRow u today gc = some r ∧
      getCell gc r cc = getCell g1 r cc := by
    cases hidx : listIdxOf (rowValues1 g) colName with
    | some i =>
      refine ⟨i + 1, g1, resolveColumn_found (hrv1 ▸ hidx), ?_, ?_, hfind1, rfl⟩
      · unfold samboColProbe; rw [hidx]
      · rw [hrv1, show i + 1 - 1 = i by omega]; exact hidx
    | none =>
      have hidx1 : listIdxOf (rowValues1 g1) colName = none := hrv1 ▸ hidx
      have hcc : (rowValues1 g1).length + 1 = samboColProbe g colName := by
        unfold samboColProbe; rw [hidx, hrv1]
      refine ⟨(rowValues1 g1).length + 1,
        updateCell g1 1 ((rowValues1 g1).length + 1) colName,
        resolveColumn_create hidx1, hcc.symm, ?_, ?_, ?_⟩
      · rw [rowValues1_create g1 colName (samboHabitMap_col_ne_empty hmap),
          show (rowValues1 g1).length + 1 - 1 = (rowValues1 g1).length by omega]
        exact listIdxOf_append_self hidx1
      · rw [samboFindRow_updateCell_row1]; exact hfind1
      · exact getCell_updateCell_row_ne g1 1 _ colName r _ (by omega) (by omega)
          (by omega)
  obtain ⟨cc, gc, hres, hccProbe, hafter, hfindc, hcellc⟩ := hcolpack
  have hcc3 : 3 ≤ cc := hccProbe ▸ hcol
  -- the probed cell is the cell the first call reads
  have hprobe : samboActivityProbe u today week colName g = getCell gc r cc := by
    unfold samboActivityProbe
    rw [hfoc, hccProbe, hcellc]
  have hvblank : (pyStrip (getCell gc r cc) == "") = true := by
    rw [← hprobe, hblank]
    rfl
  have hr0 : (r == 0) = false := by
    rw [beq_eq_false_iff_ne]; omega
  refine ⟨updateCell gc r cc (checkMark time), ?_, ?_⟩
  · -- first call: records the checkmark
    unfold samboRecordActivity
    simp only [hmap, hfoc, hr0, Bool.false_eq_true, if_false, hres,
      stCell_noFault, hvblank, stSetCell_noFault]
    rfl
  · -- second call: "already recorded", store unchanged
    have hfind2 : samboFindRow u today (updateCell gc r cc (checkMark time)) =
        some r := samboFindRow_updateCell_stable hfindc cc hcc3 _
    have hfoc2 : samboFindOrCreateActivityRow noFault u today week
        (updateCell gc r cc (checkMark time)) =
        .ok (r, updateCell gc r cc (checkMark time)) := samboFOCAct_found hfind2
    have hrv2 : rowValues1 (updateCell gc r cc (checkMark time)) =
        rowValues1 gc := rowValues1_updateCell_ge2 gc r cc _ hr2
    have hres2 : resolveColumn noFault colName
        (updateCell gc r cc (checkMark time)) =
        .ok (cc, updateCell gc r cc (checkMark time)) := by
      have := resolveColumn_found (g := updateCell gc r cc (checkMark time))
        (hrv2 ▸ hafter)
      rwa [show cc - 1 + 1 = cc by omega] at this
    have hcell2 : getCell (updateCell gc r cc (checkMark time)) r cc =
        checkMark time :=
      getCell_updateCell_self gc r cc _ (by omega) (by omega)
    unfold samboRecordActivity
    simp only [hmap, hfoc2, hr0, Bool.false_eq_true, if_false, hres2,
      stCell_noFault, hcell2, pyStrip_checkMark_ne]
    rfl

theorem botRowResolver_spec (g : Grid) (u d w : String) (hg : g ≠ [])
    (hu : pyStrip u = u) (hd : pyStrip d = d)
    {ucol dcol wcol : Nat}
    (hU : lastIdxOfStrip (rowValues1 g) "User ID" = some ucol)
    (hD : lastIdxOfStrip (rowValues1 g) "Date" = some dcol)
    (hW : lastIdxOfStrip (rowValues1 g) "Week Number" = some wcol) :
    ∃ r1 g1, botFindOrCreateActivityRow noFault u d w g = (some r1, g1) ∧
      2 ≤ r1 ∧ r1 ≤ g1.length ∧ g1 ≠ [] ∧
      rowValues1 g1 = rowValues1 g ∧
      scanRows (fun row =>
        (pyStrip (row.getD ucol "") == pyStrip u) &&
        (pyStrip (row.getD dcol "") == pyStrip d)) (g1.drop 1) 2 = some r1 := by
  have hud : ucol ≠ dcol := lastIdxOfStrip_ne hU hD (by decide)
  have huw : ucol ≠ wcol := lastIdxOfStrip_ne hU hW (by decide)
  have hdw : dcol ≠ wcol := lastIdxOfStrip_ne hD hW (by decide)
  have hult : ucol < (rowValues1 g).length :=
    (lastIdxOfStrip_some_spec _ _ _ hU).1
  have hdlt : dcol < (rowValues1 g).length :=
    (lastIdxOfStrip_some_spec _ _ _ hD).1
  have hlen1 : 1 ≤ g.length := by
    cases g with | nil => exact absurd rfl hg | cons a l => simp
  cases hscan : scanRows (fun row =>
      (pyStrip (row.getD ucol "") == pyStrip u) &&
      (pyStrip (row.getD dcol "") == pyStrip d)) (g.drop 1) 2 with
  | some i =>
    have hspec := scanRows_some_spec _ 2 i hscan
    obtain ⟨k, hk, hik, _, _⟩ := hspec
    refine ⟨i, g, ?_, by omega, ?_, hg, rfl, hscan⟩
    · unfold botFindOrCreateActivityRow botActRowBody
      simp only [stGetAll_noFault, stRowValues_noFault, hU, hD, hW, hscan]
    · have := List.length_drop 1 g
      omega
  | none =>
    set base := (((List.replicate (rowValues1 g).length "").set ucol
      (pyStrip u)).set dcol (pyStrip d)).set wcol w with hbase
    have hbaseu : base.getD ucol "" = pyStrip u := by
      rw [hbase, getD_set_ne _ _ _ _ _ (fun h => huw h.symm),
        getD_set_ne _ _ _ _ _ (fun h => hud h.symm),
        getD_set_self _ _ _ _ (by rw [List.length_replicate]; exact hult)]
    have hbased : base.getD dcol "" = pyStrip d := by
      rw [hbase, getD_set_ne _ _ _ _ _ (fun h => hdw h.symm),
        getD_set_self _ _ _ _ (by rw [List.length_set, List.length_replicate]; exact hdlt)]
    have hscannew : ∀ newRow : List String,
        newRow.getD ucol "" = pyStrip u → newRow.getD dcol "" = pyStrip d →
        scanRows (fun row =>
          (pyStrip (row.getD ucol "") == pyStrip u) &&
          (pyStrip (row.getD dcol "") == pyStrip d))
          ((g ++ [newRow]).drop 1) 2 = some (g.length + 1) := by
      intro newRow h1 h2
      rw [drop_one_append g _ hg,
        scanRows_append_none ((scanRows_eq_none _ 2).mp hscan) _ 2,
        if_pos (by simp only [h1, h2, hu, hd]; simp), List.length_drop]
      congr 1
      omega
    cases hG : lastIdxOfStrip (rowValues1 g) "Goals" with
    | some gcol =>
      have hug : ucol ≠ gcol := lastIdxOfStrip_ne hU hG (by decide)
      have hdg : dcol ≠ gcol := lastIdxOfStrip_ne hD hG (by decide)
      refine ⟨g.length + 1, g ++ [base.set gcol ""], ?_, by omega, by simp,
        by simp, rowValues1_append g _ hg, hscannew _
          (by rw [getD_set_ne _ _ _ _ _ (fun h => hug h.symm)]; exact hbaseu)
          (by rw [getD_set_ne _ _ _ _ _ (fun h => hdg h.symm)]; exact hbased)⟩
      unfold botFindOrCreateActivityRow botActRowBody
      simp only [stGetAll_noFault, stRowValues_noFault, stAppendRow_noFault,
        hU, hD, hW, hscan, hG, List.length_append, List.length_singleton]
    | none =>
      refine ⟨g.length + 1, g ++ [base], ?_, by omega, by simp, by simp,
        rowValues1_append g _ hg, hscannew base hbaseu hbased⟩
      unfold botFindOrCreateActivityRow botActRowBody
      simp only [stGetAll_noFault, stRowValues_noFault, stAppendRow_noFault,
        hU, hD, hW, hscan, hG, List.length_append, List.length_singleton]

theorem botRowResolver_stable (g1 : Grid) (u d w : String)
    {ucol dcol wcol r1 : Nat}
    (hU1 : lastIdxOfStrip (rowValues1 g1) "User ID" = some ucol)
    (hD1 : lastIdxOfStrip (rowValues1 g1) "Date" = some dcol)
    (hW1 : lastIdxOfStrip (rowValues1 g1) "Week Number" = some wcol)
    (hscan1 : scanRows (fun row =>
      (pyStrip (row.getD ucol "") == pyStrip u) &&
      (pyStrip (row.getD dcol "") == pyStrip d)) (g1.drop 1) 2 = some r1)
    (hr2 : 2 ≤ r1) (hrle : r1 ≤ g1.length)
    (c : Nat) (v : String) (hcu : c - 1 ≠ ucol) (hcd : c - 1 ≠ dcol) :
    botFindOrCreateActivityRow noFault u d w (updateCell g1 r1 c v) =
      (some r1, updateCell g1 r1 c v) := by
  have hrv : rowValues1 (updateCell g1 r1 c v) = rowValues1 g1 :=
    rowValues1_updateCell_ge2 g1 r1 c v hr2
  have hscan2 : scanRows (fun row =>
      (pyStrip (row.getD ucol "") == pyStrip u) &&
      (pyStrip (row.getD dcol "") == pyStrip d))
      ((updateCell g1 r1 c v).drop 1) 2 = some r1 := by
    rw [updateCell_drop_one g1 r1 c v hr2 hrle]
    have hgr : getRow g1 r1 = (g1.drop 1).getD (r1 - 2) [] :=
      (getRow_drop g1 r1 hr2).symm
    have hpredeq :
        ((pyStrip (((g1.drop 1).getD (r1 - 2) []).getD ucol "") == pyStrip u) &&
          (pyStrip (((g1.drop 1).getD (r1 - 2) []).getD dcol "") == pyStrip d)) =
        ((pyStrip ((setCellRow (getRow g1 r1) c v).getD ucol "") == pyStrip u) &&
          (pyStrip ((setCellRow (getRow g1 r1) c v).getD dcol "") == pyStrip d)) := by
      rw [getD_setCellRow_ne _ _ _ _ (fun h => hcu h.symm),
        getD_setCellRow_ne _ _ _ _ (fun h => hcd h.symm), ← hgr]
    rw [scanRows_set _ _ _ _ hpredeq]
    exact hscan1
  unfold botFindOrCreateActivityRow botActRowBody
  simp only [stGetAll_noFault, stRowValues_noFault, hrv, hU1, hD1, hW1, hscan2]

/-- `bot.record_activity` run twice for the same (caller, habit, day) on a
store whose habit column already exists: the first call records "✓" and the
second reports "already recorded" without changing the store. -/
theorem botActivity_two_calls (g : Grid) (u : String) (habitId : Nat)
    (today week time colName habitName : String) (i0 : Nat)
    (hg : g ≠ []) (hu : pyStrip u = u) (hd : pyStrip today = today)
    (hmap : botHabitMap habitId = some (colName, habitName))
    {ucol dcol wcol : Nat}
    (hU : lastIdxOfStrip (rowValues1 g) "User ID" = some ucol)
    (hD : lastIdxOfStrip (rowValues1 g) "Date" = some dcol)
    (hW : lastIdxOfStrip (rowValues1 g) "Week Number" = some wcol)
    (hC : lastIdxOfStrip (rowValues1 g) colName = some i0)
    (hCU : colName ≠ "User ID") (hCD : colName ≠ "Date")
    (hblank : pyStrip (botActivityProbe u today week (i0 + 1) g) = "") :
    ∃ g2, botRecordActivity noFault u habitId today week time g =
        ((true, "✓ " ++ habitName ++ " recorded at " ++ time ++ "!"), g2) ∧
      botRecordActivity noFault u habitId today week time g2 =
        ((false, habitName ++ " already recorded today"), g2) := by
  obtain ⟨r1, g1, hres, hr2, hrle, hg1ne, hrv1, hscan1⟩ :=
    botRowResolver_spec g u today week hg hu hd hU hD hW
  have hcu : (i0 + 1) - 1 ≠ ucol := by
    have := lastIdxOfStrip_ne hC hU hCU
    omega
  have hcd : (i0 + 1) - 1 ≠ dcol := by
    have := lastIdxOfStrip_ne hC hD hCD
    omega
  have hprobe : botActivityProbe u today week (i0 + 1) g =
      getCell g1 r1 (i0 + 1) := by
    unfold botActivityProbe
    rw [hres]
  have hvblank : (pyStrip (getCell g1 r1 (i0 + 1)) == "") = true := by
    rw [← hprobe, hblank]
    rfl
  refine ⟨updateCell g1 r1 (i0 + 1) "✓", ?_, ?_⟩
  · -- first call: records "✓"
    unfold botRecordActivity botActBody
    simp only [hmap, hres, stRowValues_noFault, hrv1, hC, hvblank,
      stCell_noFault, stSetCell_noFault]
    rfl
  · -- second call: "already recorded", store unchanged
    have hres2 := botRowResolver_stable g1 u today week (hrv1 ▸ hU) (hrv1 ▸ hD)
      (hrv1 ▸ hW) hscan1 hr2 hrle (i0 + 1) "✓" hcu hcd
    have hrv2 : rowValues1 (updateCell g1 r1 (i0 + 1) "✓") = rowValues1 g1 :=
      rowValues1_updateCell_ge2 g1 r1 (i0 + 1) "✓" hr2
    have hcell2 : getCell (updateCell g1 r1 (i0 + 1) "✓") r1 (i0 + 1) = "✓" :=
      getCell_updateCell_self g1 r1 (i0 + 1) "✓" (by omega) (by omega)
    unfold botRecordActivity botActBody
    simp only [hmap, hres2, stRowValues_noFault, hrv2, hrv1, hC,
      stCell_noFault, hcell2]
    rfl

/-- Claim C2 counterexample: on a fresh store whose header lacks the "Prayer"
column — so today's activity cell is absent and in particular blank — the
*first* `bot.record_activity` call returns ok=false with a column-not-found
message instead of the claimed ok=true. -/
theorem claim_C2_counterexample :
    botRecordActivity noFault "42" 1 "2024-01-08" "2024-01-08" "12:00"
      actHeaderBare =
      ((false,
        "Column \x27Prayer\x27 not found in sheet. Please add it manually."),
        [["User ID", "Date", "Week Number"],
          ["42", "2024-01-08", "2024-01-08"]]) := by rfl

/-- Claim C2 as amended: at-most-once-per-day holds for both activity
recorders *provided bot.py's habit column already exists in the header row*
(when it is absent, bot.py's first call fails with a column-not-found message
— see C7 — while sambo_core creates the column).  Starting from a store where
the resolved cell is blank or absent, the first call returns ok=true and
writes a checkmark token, and the immediately repeated call returns ok=false
with "... already recorded today" and leaves the store unchanged. -/
theorem claim_C2 (g : Grid) (u : String) (habitId : Nat)
    (today week time sColName sHabitName bColName bHabitName : String)
    (i0 : Nat)
    (hg : g ≠ []) (hu : pyStrip u = u) (hd : pyStrip today = today)
    (hmapS : samboHabitMap habitId = some (sColName, sHabitName))
    (hmapB : botHabitMap habitId = some (bColName, bHabitName))
    (hcolS : 3 ≤ samboColProbe g sColName)
    (hblankS : pyStrip (samboActivityProbe u today week sColName g) = "")
    {ucol dcol wcol : Nat}
    (hU : lastIdxOfStrip (rowValues1 g) "User ID" = some ucol)
    (hD : lastIdxOfStrip (rowValues1 g) "Date" = some dcol)
    (hW : lastIdxOfStrip (rowValues1 g) "Week Number" = some wcol)
    (hC : lastIdxOfStrip (rowValues1 g) bColName = some i0)
    (hCU : bColName ≠ "User ID") (hCD : bColName ≠ "Date")
    (hblankB : pyStrip (botActivityProbe u today week (i0 + 1) g) = "") :
    (∃ g2, samboRecordActivity noFault u habitId today week time g =
        .ok ((true, "✓ " ++ sHabitName ++ " recorded at " ++ time ++ "!"), g2) ∧
      samboRecordActivity noFault u habitId today week time g2 =
        .ok ((false, sHabitName ++ " already recorded today"), g2)) ∧
    (∃ g2, botRecordActivity noFault u habitId today week time g =
        ((true, "✓ " ++ bHabitName ++ " recorded at " ++ time ++ "!"), g2) ∧
      botRecordActivity noFault u habitId today week time g2 =
        ((false, bHabitName ++ " already recorded today"), g2)) :=
  ⟨samboActivity_two_calls g u habitId today week time sColName sHabitName hg
      hmapS hcolS hblankS,
    botActivity_two_calls g u habitId today week time bColName bHabitName i0
      hg hu hd hmapB hU hD hW hC hCU hCD hblankB⟩

theorem claim_C2_witness :
    (∃ g2, samboRecordActivity noFault "42" 1 "2024-01-08" "2024-01-08" "12:00"
        actHeaderFull =
        .ok ((true, "✓ " ++ "Prayer with first water" ++ " recorded at " ++
          "12:00" ++ "!"), g2) ∧
      samboRecordActivity noFault "42" 1 "2024-01-08" "2024-01-08" "12:00" g2 =
        .ok ((false, "Prayer with first water" ++ " already recorded today"),
          g2)) ∧
    (∃ g2, botRecordActivity noFault "42" 1 "2024-01-08" "2024-01-08" "12:00"
        actHeaderFull =
        ((true, "✓ " ++ "Prayer with first water" ++ " recorded at " ++
          "12:00" ++ "!"), g2) ∧
      botRecordActivity noFault "42" 1 "2024-01-08" "2024-01-08" "12:00" g2 =
        ((false, "Prayer with first water" ++ " already recorded today"),
          g2)) :=
  @claim_C2 actHeaderFull "42" 1 "2024-01-08" "2024-01-08" "12:00"
    "Prayer" "Prayer with first water" "Prayer" "Prayer with first water" 3
    (by decide) (by decide) (by decide) (by rfl) (by rfl) (by decide)
    (by decide) 0 1 2 (by decide) (by decide) (by decide) (by decide)
    (by decide) (by decide) (by decide)

/-- `sambo_core.record_activity` with the habit column absent: the column is
created lazily one past the existing header cells and the recording still
succeeds. -/
theorem samboActivity_creates_column (g : Grid) (u : String) (habitId : Nat)
    (today week time colName habitName : String)
    (hg : g ≠ [])
    (hmap : samboHabitMap habitId = some (colName, habitName))
    (hidx : listIdxOf (rowValues1 g) colName = none)
    (hblank : pyStrip (samboActivityProbe u today week colName g) = "") :
    ∃ g2, samboRecordActivity noFault u habitId today week time g =
        .ok ((true, "✓ " ++ habitName ++ " recorded at " ++ time ++ "!"), g2) ∧
      rowValues1 g2 = rowValues1 g ++ [colName] := by
  have hlen1 : 1 ≤ g.length := by
    cases g with | nil => exact absurd rfl hg | cons a l => simp
  have hrowpack : ∃ r g1,
      samboFindOrCreateActivityRow noFault u today week g = .ok (r, g1) ∧
      2 ≤ r ∧ rowValues1 g1 = rowValues1 g := by
    cases hfind : samboFindRow u today g with
    | some i =>
      refine ⟨i, g, samboFOCAct_found hfind, ?_, rfl⟩
      have hsp := hfind
      unfold samboFindRow at hsp
      obtain ⟨k, _, hik, _, _⟩ := scanRows_some_spec _ 2 i hsp
      omega
    | none =>
      exact ⟨g.length + 1, g ++ [samboActivityNewRow u today week],
        samboFOCAct_none hfind, by omega, rowValues1_append g _ hg⟩
  obtain ⟨r, g1, hfoc, hr2, hrv1⟩ := hrowpack
  have hidx1 : listIdxOf (rowValues1 g1) colName = none := hrv1 ▸ hidx
  have hres : resolveColumn noFault colName g1 =
      .ok ((rowValues1 g1).length + 1,
        updateCell g1 1 ((rowValues1 g1).length + 1) colName) :=
    resolveColumn_create hidx1
  set gc := updateCell g1 1 ((rowValues1 g1).length + 1) colName with hgc
  have hccProbe : samboColProbe g colName = (rowValues1 g1).length + 1 := by
    unfold samboColProbe
    rw [hidx, hrv1]
  have hcellc : getCell gc r ((rowValues1 g1).length + 1) =
      getCell g1 r ((rowValues1 g1).length + 1) :=
    getCell_updateCell_row_ne g1 1 _ colName r _ (by omega) (by omega) (by omega)
  have hprobe : samboActivityProbe u today week colName g =
      getCell gc r ((rowValues1 g1).length + 1) := by
    unfold samboActivityProbe
    rw [hfoc, hccProbe, hcellc]
  have hvblank : (pyStrip (getCell gc r ((rowValues1 g1).length + 1)) == "") =
      true := by
    rw [← hprobe, hblank]
    rfl
  have hr0 : (r == 0) = false := by
    rw [beq_eq_false_iff_ne]; omega
  refine ⟨updateCell gc r ((rowValues1 g1).length + 1) (checkMark time), ?_, ?_⟩
  · unfold samboRecordActivity
    simp only [hmap, hfoc, hr0, Bool.false_eq_true, if_false, hres,
      stCell_noFault, hvblank, stSetCell_noFault]
    rfl
  · rw [rowValues1_updateCell_ge2 gc r _ _ hr2, hgc,
      rowValues1_create g1 colName (samboHabitMap_col_ne_empty hmap), hrv1]

/-- Claim C7 counterexample: `bot.record_activity` does *not* create a missing
metric column.  On a store lacking the "Prayer" column it fails with a
column-not-found message and the header row is left without the column. -/
theorem claim_C7_counterexample :
    (botRecordActivity noFault "42" 1 "2024-01-08" "2024-01-08" "12:00"
      actHeaderBare).1 =
      (false,
        "Column \x27Prayer\x27 not found in sheet. Please add it manually.") ∧
    rowValues1 (botRecordActivity noFault "42" 1 "2024-01-08" "2024-01-08"
      "12:00" actHeaderBare).2 = ["User ID", "Date", "Week Number"] := by
  constructor <;> rfl

set_option maxHeartbeats 2000000 in
/-- Claim C7 as amended: every recorder *except* `bot.record_activity` creates
a missing metric column lazily and still succeeds — writing the label one
past the last existing header cell, except `sambo_core.record_consumption`'s
cost column, which is written two past the stale header length and so leaves
a blank header cell when only the cost column was missing.
`bot.record_activity` instead fails with a column-not-found message (see the
counterexample). -/
theorem claim_C7 (g : Grid) (u : String) (habitId : Nat)
    (today week time colName habitName : String)
    (hg : g ≠ [])
    (hmap : samboHabitMap habitId = some (colName, habitName))
    (hidx : listIdxOf (rowValues1 g) colName = none)
    (hblank : pyStrip (samboActivityProbe u today week colName g) = "") :
    (∃ g2, samboRecordActivity noFault u habitId today week time g =
        .ok ((true, "✓ " ++ habitName ++ " recorded at " ++ time ++ "!"), g2) ∧
      rowValues1 g2 = rowValues1 g ++ [colName]) ∧
    (samboRecordLanguage noFault u "ch" today week time [["User ID", "Date"]] =
      .ok ((true, "✓ Chinese session #1 recorded at " ++ time ++ "!"),
        [["User ID", "Date", "Chinese (ch)"],
          [u, today, "1", "0", "0", week, ""]])) ∧
    (samboRecordConsumption noFault u "x" today week
        [["User ID", "Date", "Coffee (x)"]] =
      .ok ((true, "✓ Coffee x1 recorded! Total today: 1"),
        [["User ID", "Date", "Coffee (x)", "", "Coffee Cost"],
          [u, today, "1", "0", "0", "0", "0", "0", week, ""]])) ∧
    (botRecordConsumption noFault u "x" today week [["User ID", "Date"]] =
      ((true, "✓ Coffee x1 recorded! Total: 1"),
        [["User ID", "Date", "Coffee (x)", "Coffee Cost"], [u, today, "1"]])) ∧
    (botRecordLanguage noFault u "ch" today week time [["User ID", "Date"]] =
      ((true, "✓ Chinese session #1 recorded at " ++ time ++ "!"),
        [["User ID", "Date", "Chinese (ch)"], [u, today, "1"]])) :=
  ⟨samboActivity_creates_column g u habitId today week time colName habitName
      hg hmap hidx hblank, by rfl, by rfl, by rfl, by rfl⟩

theorem claim_C7_witness :
    (∃ g2, samboRecordActivity noFault "42" 1 "2024-01-08" "2024-01-08" "12:00"
        actHeaderBare =
        .ok ((true, "✓ " ++ "Prayer with first water" ++ " recorded at " ++
          "12:00" ++ "!"), g2) ∧
      rowValues1 g2 = rowValues1 actHeaderBare ++ ["Prayer"]) ∧
    (samboRecordLanguage noFault "42" "ch" "2024-01-08" "2024-01-08" "12:00"
        [["User ID", "Date"]] =
      .ok ((true, "✓ Chinese session #1 recorded at " ++ "12:00" ++ "!"),
        [["User ID", "Date", "Chinese (ch)"],
          ["42", "2024-01-08", "1", "0", "0", "2024-01-08", ""]])) ∧
    (samboRecordConsumption noFault "42" "x" "2024-01-08" "2024-01-08"
        [["User ID", "Date", "Coffee (x)"]] =
      .ok ((true, "✓ Coffee x1 recorded! Total today: 1"),
        [["User ID", "Date", "Coffee (x)", "", "Coffee Cost"],
          ["42", "2024-01-08", "1", "0", "0", "0", "0", "0", "2024-01-08",
            ""]])) ∧
    (botRecordConsumption noFault "42" "x" "2024-01-08" "2024-01-08"
        [["User ID", "Date"]] =
      ((true, "✓ Coffee x1 recorded! Total: 1"),
        [["User ID", "Date", "Coffee (x)", "Coffee Cost"],
          ["42", "2024-01-08", "1"]])) ∧
    (botRecordLanguage noFault "42" "ch" "2024-01-08" "2024-01-08" "12:00"
        [["User ID", "Date"]] =
      ((true, "✓ Chinese session #1 recorded at " ++ "12:00" ++ "!"),
        [["User ID", "Date", "Chinese (ch)"], ["42", "2024-01-08", "1"]])) :=
  claim_C7 actHeaderBare "42" 1 "2024-01-08" "2024-01-08" "12:00"
    "Prayer" "Prayer with first water" (by decide) (by rfl) (by decide)
    (by decide)

theorem botCellStrip_eq (v : String) : botCellStrip v = pyStrip v := by
  unfold botCellStrip
  by_cases h : (v == "") = true
  · rw [if_pos h, beq_iff_eq.mp h]
    rfl
  · rw [if_neg h]

theorem parseCellInt_eq_zero {v : String}
    (h : pyStrip v = "" ∨ ∀ n : Int, pyInt v ≠ .ok n) : parseCellInt v = 0 := by
  unfold parseCellInt
  by_cases h1 : (v == "") = true
  · rw [if_pos h1]
  · rw [if_neg h1]
    by_cases h2 : (pyStrip v == "") = true
    · rw [if_pos h2]
    · rw [if_neg h2]
      cases hp : pyInt v with
      | ok n =>
        rcases h with h | h
        · exact absurd (by rw [h]; rfl) h2
        · exact absurd hp (h n)
      | error e => rfl

theorem botLangRow_found (u today week : String) (row : List String)
    (hd : pyStrip today = today) (hlen : 2 ≤ row.length)
    (h0 : row.getD 0 "" = u) (h1 : row.getD 1 "" = today) :
    botFindOrCreateLanguageRow noFault u today week [langHeader, row] =
      (some 2, [langHeader, row]) := by
  have hpred : (decide (2 ≤ row.length) &&
      (botCellStrip (row.getD 0 "") == pyStrip u) &&
      (botCellStrip (row.getD 1 "") == today)) = true := by
    rw [h0, h1, botCellStrip_eq, botCellStrip_eq, hd]
    simp [hlen]
  have hscan : scanRows (fun row =>
      decide (2 ≤ row.length) &&
      (botCellStrip (row.getD 0 "") == pyStrip u) &&
      (botCellStrip (row.getD 1 "") == today)) [row] 2 = some 2 := by
    rw [scanRows, if_pos hpred]
  unfold botFindOrCreateLanguageRow botLangRowBody
  simp only [stGetAll_noFault]
  rw [show ([langHeader, row] : Grid).drop 1 = [row] from rfl]
  simp only [hscan]

theorem botLangRow_zero (u today week : String) :
    botFindOrCreateLanguageRow noFault u today week [langHeader] =
      (some 2, [langHeader, [u, today, "0", "0", "0", week]]) := by rfl

theorem botLanguage_after_resolve (u today week time code colName langName :
    String) (j : Nat) (g0 : Grid) (row : List String) (n : Nat)
    (hmap : langMap code = some (colName, langName))
    (hres : botFindOrCreateLanguageRow noFault u today week g0 =
      (some 2, [langHeader, row]))
    (hj1 : 1 ≤ j)
    (hcol : listIdxOfP (fun h => pyStrip h == colName) langHeader =
      some (j - 1))
    (hparse : parseCellInt (row.getD (j - 1) "") = (n : Int)) :
    botRecordLanguage noFault u code today week time g0 =
      ((true, "✓ " ++ langName ++ " session #" ++ printNat (n + 1) ++
        " recorded at " ++ time ++ "!"),
        [langHeader, setCellRow row j (printNat (n + 1))]) := by
  have hrv : rowValues1 [langHeader, row] = langHeader := rfl
  have hcell : getCell [langHeader, row] 2 (j - 1 + 1) = row.getD (j - 1) "" := by
    rw [show j - 1 + 1 = j by omega]
    rfl
  have hcast : parseCellInt (row.getD (j - 1) "") + 1 = ((n + 1 : Nat) : Int) := by
    rw [hparse]
    push_cast
    ring
  have hupd : updateCell [langHeader, row] 2 (j - 1 + 1) (printNat (n + 1)) =
      [langHeader, setCellRow row j (printNat (n + 1))] := by
    rw [show j - 1 + 1 = j by omega]
    rfl
  unfold botRecordLanguage botLangBody
  simp only [hmap, hres, stRowValues_noFault, hrv, hcol, stCell_noFault,
    hcell, stSetCell_noFault, hcast, hupd, printInt_natCast]

theorem langMap_cases {code colName langName : String}
    (h : langMap code = some (colName, langName)) :
    (code = "ch" ∧ colName = "Chinese (ch)" ∧ langName = "Chinese") ∨
    (code = "he" ∧ colName = "Hebrew (he)" ∧ langName = "Hebrew") ∨
    (code = "ta" ∧ colName = "Tatar (ta)" ∧ langName = "Tatar") := by
  unfold langMap at h
  by_cases h1 : (code == "ch") = true
  · rw [if_pos h1] at h
    exact Or.inl ⟨beq_iff_eq.mp h1,
      (congrArg Prod.fst (Option.some.inj h)).symm,
      (congrArg Prod.snd (Option.some.inj h)).symm⟩
  · rw [if_neg h1] at h
    by_cases h2 : (code == "he") = true
    · rw [if_pos h2] at h
      exact Or.inr (Or.inl ⟨beq_iff_eq.mp h2,
        (congrArg Prod.fst (Option.some.inj h)).symm,
        (congrArg Prod.snd (Option.some.inj h)).symm⟩)
    · rw [if_neg h2] at h
      by_cases h3 : (code == "ta") = true
      · rw [if_pos h3] at h
        exact Or.inr (Or.inr ⟨beq_iff_eq.mp h3,
          (congrArg Prod.fst (Option.some.inj h)).symm,
          (congrArg Prod.snd (Option.some.inj h)).symm⟩)
      · rw [if_neg h3] at h
        exact absurd h (by simp)

theorem botLanguage_state_step_aux (u today week time code colName langName :
    String) (j : Nat)
    (hd : pyStrip today = today)
    (hmap : langMap code = some (colName, langName))
    (hjc : langColOf code = j) (hj3 : 3 ≤ j) (hj5 : j ≤ 5)
    (hcol : listIdxOfP (fun h => pyStrip h == colName) langHeader =
      some (j - 1))
    (hrow0 : ([u, today, "0", "0", "0", week]).getD (j - 1) "" = "0")
    (k : Nat) :
    botRecordLanguage noFault u code today week time
      (langState u today week code k) =
      ((true, "✓ " ++ langName ++ " session #" ++ printNat (k + 1) ++
        " recorded at " ++ time ++ "!"),
        langState u today week code (k + 1)) := by
  have hsetrow : ∀ v : String,
      setCellRow [u, today, "0", "0", "0", week] j v =
      ([u, today, "0", "0", "0", week]).set (j - 1) v := by
    intro v
    unfold setCellRow
    rw [padList_of_le (by simp; omega)]
  cases k with
  | zero =>
    have hparse : parseCellInt
        (([u, today, "0", "0", "0", week]).getD (j - 1) "") = ((0 : Nat) : Int) := by
      rw [hrow0]
      rfl
    have hstep := botLanguage_after_resolve u today week time code colName
      langName j [langHeader] [u, today, "0", "0", "0", week] 0 hmap
      (botLangRow_zero u today week) (by omega) hcol hparse
    rw [show langState u today week code 0 = [langHeader] from rfl, hstep,
      hsetrow]
    rw [show langState u today week code 1 =
      [langHeader, langStateRow u today week (langColOf code) 1] from rfl]
    unfold langStateRow
    rw [hjc]
  | succ k =>
    set row := langStateRow u today week j (k + 1) with hrowdef
    have hlenrow : row.length = 6 := by
      rw [hrowdef]
      unfold langStateRow
      rw [List.length_set]
      rfl
    have h0 : row.getD 0 "" = u := by
      rw [hrowdef]
      unfold langStateRow
      rw [getD_set_ne _ _ _ _ _ (by omega)]
      rfl
    have h1 : row.getD 1 "" = today := by
      rw [hrowdef]
      unfold langStateRow
      rw [getD_set_ne _ _ _ _ _ (by omega)]
      rfl
    have hget : row.getD (j - 1) "" = printNat (k + 1) := by
      rw [hrowdef]
      unfold langStateRow
      rw [getD_set_self _ _ _ _ (by simp; omega)]
    have hparse : parseCellInt (row.getD (j - 1) "") = ((k + 1 : Nat) : Int) := by
      rw [hget, parseCellInt_printNat]
    have hres := botLangRow_found u today week row hd (by omega) h0 h1
    have hstep := botLanguage_after_resolve u today week time code colName
      langName j [langHeader, row] row (k + 1) hmap hres (by omega) hcol hparse
    have hsetrow2 : setCellRow row j (printNat (k + 1 + 1)) =
        langStateRow u today week j (k + 2) := by
      unfold setCellRow
      rw [padList_of_le (by rw [hlenrow]; omega), hrowdef]
      unfold langStateRow
      rw [List.set_set]
    rw [show langState u today week code (k + 1) = [langHeader,
      langStateRow u today week (langColOf code) (k + 1)] from rfl, hjc,
      ← hrowdef, hstep, hsetrow2]
    rw [show langState u today week code (k + 2) = [langHeader,
      langStateRow u today week (langColOf code) (k + 2)] from rfl, hjc]

theorem botLanguage_state_step (u today week time code colName langName :
    String) (hd : pyStrip today = today)
    (hmap : langMap code = some (colName, langName)) (k : Nat) :
    botRecordLanguage noFault u code today week time
      (langState u today week code k) =
      ((true, "✓ " ++ langName ++ " session #" ++ printNat (k + 1) ++
        " recorded at " ++ time ++ "!"),
        langState u today week code (k + 1)) := by
  rcases langMap_cases hmap with ⟨hc, hcn, hln⟩ | ⟨hc, hcn, hln⟩ |
    ⟨hc, hcn, hln⟩ <;> subst hc <;> subst hcn <;> subst hln
  · exact botLanguage_state_step_aux u today week time "ch" "Chinese (ch)"
      "Chinese" 3 hd (by rfl) (by rfl) (by omega) (by omega) (by rfl)
      (by rfl) k
  · exact botLanguage_state_step_aux u today week time "he" "Hebrew (he)"
      "Hebrew" 4 hd (by rfl) (by rfl) (by omega) (by omega) (by rfl)
      (by rfl) k
  · exact botLanguage_state_step_aux u today week time "ta" "Tatar (ta)"
      "Tatar" 5 hd (by rfl) (by rfl) (by omega) (by omega) (by rfl)
      (by rfl) k

theorem runBotLanguage_spec (u today week time code colName langName : String)
    (hd : pyStrip today = today)
    (hmap : langMap code = some (colName, langName)) :
    ∀ N k, runBotLanguage u code today week time N
        (langState u today week code k) =
      (langState u today week code (k + N),
        (List.range N).map (fun i => "✓ " ++ langName ++ " session #" ++
          printNat (k + i + 1) ++ " recorded at " ++ time ++ "!")) := by
  intro N
  induction N with
  | zero => intro k; simp [runBotLanguage]
  | succ N ih =>
    intro k
    rw [runBotLanguage,
      botLanguage_state_step u today week time code colName langName hd hmap k]
    dsimp only
    rw [ih (k + 1)]
    dsimp only
    have harith : k + 1 + N = k + (N + 1) := by omega
    rw [harith, List.range_succ_eq_map, List.map_cons, List.map_map]
    refine congrArg (Prod.mk _) ?_
    show _ :: _ = _ :: _
    congr 1
    refine List.map_congr_left ?_
    intro i _
    simp only [Function.comp]
    rw [show k + 1 + i + 1 = k + (i + 1) + 1 by omega]

theorem botLanguage_nonnumeric_aux (u today week time code colName langName :
    String) (j : Nat) (v : String)
    (hd : pyStrip today = today)
    (hmap : langMap code = some (colName, langName))
    (hj3 : 3 ≤ j) (hj5 : j ≤ 5)
    (hcol : listIdxOfP (fun h => pyStrip h == colName) langHeader =
      some (j - 1))
    (hv : pyStrip v = "" ∨ ∀ n : Int, pyInt v ≠ .ok n) :
    botRecordLanguage noFault u code today week time
      [langHeader, ([u, today, "0", "0", "0", week]).set (j - 1) v] =
      ((true, "✓ " ++ langName ++ " session #" ++ printNat 1 ++
        " recorded at " ++ time ++ "!"),
        [langHeader,
          ([u, today, "0", "0", "0", week]).set (j - 1) (printNat 1)]) := by
  set row := ([u, today, "0", "0", "0", week]).set (j - 1) v with hrowdef
  have h0 : row.getD 0 "" = u := by
    rw [hrowdef, getD_set_ne _ _ _ _ _ (by omega)]
    rfl
  have h1 : row.getD 1 "" = today := by
    rw [hrowdef, getD_set_ne _ _ _ _ _ (by omega)]
    rfl
  have hlenrow : row.length = 6 := by
    rw [hrowdef, List.length_set]
    rfl
  have hget : row.getD (j - 1) "" = v := by
    rw [hrowdef, getD_set_self _ _ _ _ (by simp; omega)]
  have hparse : parseCellInt (row.getD (j - 1) "") = ((0 : Nat) : Int) := by
    rw [hget, parseCellInt_eq_zero hv]
    simp
  have hres := botLangRow_found u today week row hd (by omega) h0 h1
  have hstep := botLanguage_after_resolve u today week time code colName
    langName j [langHeader, row] row 0 hmap hres (by omega) hcol hparse
  have hfin : setCellRow row j (printNat (0 + 1)) =
      ([u, today, "0", "0", "0", week]).set (j - 1) (printNat 1) := by
    unfold setCellRow
    rw [padList_of_le (by rw [hlenrow]; omega), hrowdef, List.set_set]
  rw [hstep, hfin]

/-- Claim C5 counterexample: `sambo_core.record_language` does *not* treat a
non-numeric session cell as 0 — `int(current_value or 0)` raises a raw
`ValueError` when the cell holds "abc". -/
theorem claim_C5_counterexample :
    samboRecordLanguage noFault "42" "ch" "2024-01-08" "2024-01-08" "12:00"
      [["User ID", "Date", "Chinese (ch)"], ["42", "2024-01-08", "abc"]] =
      .error (.valueError,
        [["User ID", "Date", "Chinese (ch)"], ["42", "2024-01-08", "abc"]]) :=
  by rfl

/-- Claim C5 as amended: `bot.record_language` reads the session cell treating
a blank or non-numeric value as 0, increments by exactly one and writes the
result back; N successive same-day calls announce sessions #1..#N and leave
the stored count at N.  (`sambo_core.record_language` treats blank as 0 but
*raises* on a non-numeric cell — see the counterexample.) -/
theorem claim_C5 (u today week time code colName langName : String)
    (hd : pyStrip today = today)
    (hmap : langMap code = some (colName, langName)) :
    (∀ v : String, (pyStrip v = "" ∨ ∀ n : Int, pyInt v ≠ .ok n) →
      botRecordLanguage noFault u code today week time
        [langHeader,
          ([u, today, "0", "0", "0", week]).set (langColOf code - 1) v] =
        ((true, "✓ " ++ langName ++ " session #" ++ printNat 1 ++
          " recorded at " ++ time ++ "!"),
          [langHeader, ([u, today, "0", "0", "0", week]).set
            (langColOf code - 1) (printNat 1)])) ∧
    (∀ N : Nat, runBotLanguage u code today week time N
        (langState u today week code 0) =
      (langState u today week code N,
        (List.range N).map (fun i => "✓ " ++ langName ++ " session #" ++
          printNat (i + 1) ++ " recorded at " ++ time ++ "!"))) ∧
    (∀ N : Nat, 1 ≤ N →
      getCell (langState u today week code N) 2 (langColOf code) =
        printNat N) := by
  refine ⟨?_, ?_, ?_⟩
  · intro v hv
    rcases langMap_cases hmap with ⟨hc, hcn, hln⟩ | ⟨hc, hcn, hln⟩ |
      ⟨hc, hcn, hln⟩ <;> subst hc <;> subst hcn <;> subst hln
    · exact botLanguage_nonnumeric_aux u today week time "ch" "Chinese (ch)"
        "Chinese" 3 v hd (by rfl) (by omega) (by omega) (by rfl) hv
    · exact botLanguage_nonnumeric_aux u today week time "he" "Hebrew (he)"
        "Hebrew" 4 v hd (by rfl) (by omega) (by omega) (by rfl) hv
    · exact botLanguage_nonnumeric_aux u today week time "ta" "Tatar (ta)"
        "Tatar" 5 v hd (by rfl) (by omega) (by omega) (by rfl) hv
  · intro N
    rw [runBotLanguage_spec u today week time code colName langName hd hmap N 0,
      show (0 : Nat) + N = N by omega]
    refine congrArg (Prod.mk _) ?_
    refine List.map_congr_left ?_
    intro i _
    rw [show 0 + i + 1 = i + 1 by omega]
  · intro N hN
    cases N with
    | zero => omega
    | succ m =>
      rcases langMap_cases hmap with ⟨hc, _, _⟩ | ⟨hc, _, _⟩ | ⟨hc, _, _⟩ <;>
        subst hc
      · show (([u, today, "0", "0", "0", week]).set 2
          (printNat (m + 1))).getD 2 "" = printNat (m + 1)
        rw [getD_set_self _ _ _ _ (by simp)]
      · show (([u, today, "0", "0", "0", week]).set 3
          (printNat (m + 1))).getD 3 "" = printNat (m + 1)
        rw [getD_set_self _ _ _ _ (by simp)]
      · show (([u, today, "0", "0", "0", week]).set 4
          (printNat (m + 1))).getD 4 "" = printNat (m + 1)
        rw [getD_set_self _ _ _ _ (by simp)]

theorem claim_C5_witness :
    (∀ v : String, (pyStrip v = "" ∨ ∀ n : Int, pyInt v ≠ .ok n) →
      botRecordLanguage noFault "42" "ch" "2024-01-08" "2024-01-08" "12:00"
        [langHeader, (["42", "2024-01-08", "0", "0", "0", "2024-01-08"]).set
          (langColOf "ch" - 1) v] =
        ((true, "✓ Chinese session #" ++ printNat 1 ++ " recorded at " ++
          "12:00" ++ "!"),
          [langHeader, (["42", "2024-01-08", "0", "0", "0",
            "2024-01-08"]).set (langColOf "ch" - 1) (printNat 1)])) ∧
    (∀ N : Nat, runBotLanguage "42" "ch" "2024-01-08" "2024-01-08" "12:00" N
        (langState "42" "2024-01-08" "2024-01-08" "ch" 0) =
      (langState "42" "2024-01-08" "2024-01-08" "ch" N,
        (List.range N).map (fun i => "✓ Chinese session #" ++
          printNat (i + 1) ++ " recorded at " ++ "12:00" ++ "!"))) ∧
    (∀ N : Nat, 1 ≤ N →
      getCell (langState "42" "2024-01-08" "2024-01-08" "ch" N) 2
        (langColOf "ch") = printNat N) :=
  claim_C5 "42" "2024-01-08" "2024-01-08" "12:00" "ch" "Chinese (ch)"
    "Chinese" (by decide) (by rfl)

/-- The successful `bot.record_consumption` flow for an all-'x' token with a
zero cost (no second token, or an unparseable one), on a fresh Consumption
sheet: the count recorded equals the token's length and the call succeeds. -/
theorem botConsumption_x_flow (text p0 : String) (rest : List String)
    (hsplit : pySplit (pyLower (pyStrip text)) = p0 :: rest)
    (hhead : p0.data.headD ' ' = 'x')
    (hall : (p0.data.all (fun c => c == p0.data.headD ' ')) = true)
    (hcost : rest = [] ∨
      ∃ p1 rest2, rest = p1 :: rest2 ∧ pyIntFloat p1 = .error .valueError) :
    botRecordConsumption noFault "42" text "2024-01-08" "2024-01-08"
      consHeader =
      ((true, "✓ Coffee x" ++ printNat p0.length ++ " recorded" ++ "" ++
        "! Total: " ++ printNat p0.length),
        [["User ID", "Date", "Coffee (x)", "Coffee Cost", "Week Number"],
          ["42", "2024-01-08", printNat p0.length, "0", "2024-01-08"]]) := by
  have hp0ne : (p0 == "") = false := by
    by_cases h : (p0 == "") = true
    · exfalso
      have hp : p0 = "" := beq_iff_eq.mp h
      rw [hp] at hhead
      exact absurd hhead (by decide)
    · simpa using h
  have hif1 : (p0 == "" || !(('x' : Char) == 'x' || ('x' : Char) == 'y' ||
      ('x' : Char) == 'z')) = false := by
    rw [hp0ne]
    rfl
  have hall2 : (p0.data.all (fun c => c == 'x')) = true := by
    rw [← hhead]
    exact hall
  have hrow : botFindOrCreateConsumptionRow noFault "42" "2024-01-08"
      "2024-01-08" consHeader =
      (some 2, [["User ID", "Date", "Coffee (x)", "Coffee Cost",
        "Week Number"], ["42", "2024-01-08", "0", "0", "2024-01-08"]]) := by
    rfl
  have hconfig : consumptionConfig 'x' =
      some ("Coffee (x)", "Coffee Cost", "Coffee") := rfl
  have hidx1 : listIdxOf (rowValues1 [["User ID", "Date", "Coffee (x)",
      "Coffee Cost", "Week Number"], ["42", "2024-01-08", "0", "0",
      "2024-01-08"]]) "Coffee (x)" = some 2 := rfl
  have hidx2 : listIdxOf (rowValues1 [["User ID", "Date", "Coffee (x)",
      "Coffee Cost", "Week Number"], ["42", "2024-01-08", "0", "0",
      "2024-01-08"]]) "Coffee Cost" = some 3 := rfl
  have hcell1 : getCell [["User ID", "Date", "Coffee (x)", "Coffee Cost",
      "Week Number"], ["42", "2024-01-08", "0", "0", "2024-01-08"]] 2 3 =
      "0" := rfl
  have hcell2 : getCell [["User ID", "Date", "Coffee (x)", "Coffee Cost",
      "Week Number"], ["42", "2024-01-08", "0", "0", "2024-01-08"]] 2 4 =
      "0" := rfl
  have hcast : parseCellInt "0" + (p0.length : Int) =
      ((p0.length : Nat) : Int) := by
    rw [show parseCellInt "0" = 0 from rfl]
    omega
  unfold botRecordConsumption botConsBody
  rcases hcost with hrest | ⟨p1, rest2, hrest, hpf⟩ <;> subst hrest
  · simp only [hsplit, hhead, hif1, Bool.false_eq_true, if_false, hall2,
      Bool.true_eq_false, hconfig, hrow, stRowValues_noFault, hidx1, hidx2,
      stCell_noFault, stSetCell_noFault, hcell1, hcell2, hcast,
      printInt_natCast, lt_irrefl]
    rfl
  · simp only [hsplit, hhead, hif1, Bool.false_eq_true, if_false, hall2,
      Bool.true_eq_false, hpf, hconfig, hrow, stRowValues_noFault, hidx1,
      hidx2, stCell_noFault, stSetCell_noFault, hcell1, hcell2, hcast,
      printInt_natCast, lt_irrefl]
    rfl

/-- The successful `sambo_core.record_consumption` flow for a single token
whose *first* character is 'x' (the rest of the token is not validated), on a
fresh Consumption sheet: the count recorded equals the token's length. -/
theorem samboConsumption_x_flow (text p0 : String)
    (hsplit : pySplit (pyLower (pyStrip text)) = [p0])
    (hhead : p0.data.headD ' ' = 'x') :
    samboRecordConsumption noFault "42" text "2024-01-08" "2024-01-08"
      [["User ID", "Date", "Coffee (x)", "Coffee Cost"]] =
      .ok ((true, "✓ Coffee x" ++ printNat p0.length ++ " recorded" ++ "" ++
        "! Total today: " ++ printNat p0.length),
        [["User ID", "Date", "Coffee (x)", "Coffee Cost"],
          ["42", "2024-01-08", printNat p0.length, "0", "0", "0", "0", "0",
            "2024-01-08", ""]]) := by
  have hif1 : ((('x' : Char) == 'x' || ('x' : Char) == 'y' ||
      ('x' : Char) == 'z') = false) = False := by simp
  have hrow : samboFindOrCreateConsumptionRow noFault "42" "2024-01-08"
      "2024-01-08" [["User ID", "Date", "Coffee (x)", "Coffee Cost"]] =
      .ok (2, [["User ID", "Date", "Coffee (x)", "Coffee Cost"],
        ["42", "2024-01-08", "0", "0", "0", "0", "0", "0", "2024-01-08",
          ""]]) := rfl
  have hconfig : consumptionConfig 'x' =
      some ("Coffee (x)", "Coffee Cost", "Coffee") := rfl
  have hidx1 : listIdxOf (rowValues1 [["User ID", "Date", "Coffee (x)",
      "Coffee Cost"], ["42", "2024-01-08", "0", "0", "0", "0", "0", "0",
      "2024-01-08", ""]]) "Coffee (x)" = some 2 := rfl
  have hidx2 : listIdxOf (rowValues1 [["User ID", "Date", "Coffee (x)",
      "Coffee Cost"], ["42", "2024-01-08", "0", "0", "0", "0", "0", "0",
      "2024-01-08", ""]]) "Coffee Cost" = some 3 := rfl
  have hcell1 : getCell [["User ID", "Date", "Coffee (x)", "Coffee Cost"],
      ["42", "2024-01-08", "0", "0", "0", "0", "0", "0", "2024-01-08", ""]]
      2 3 = "0" := rfl
  have hcell2 : getCell [["User ID", "Date", "Coffee (x)", "Coffee Cost"],
      ["42", "2024-01-08", "0", "0", "0", "0", "0", "0", "2024-01-08", ""]]
      2 4 = "0" := rfl
  have hsc : samboCellInt "0" = .ok 0 := rfl
  have hcast : (0 : Int) + (p0.length : Int) = ((p0.length : Nat) : Int) := by
    omega
  unfold samboRecordConsumption
  simp only [hsplit, hhead, hif1, if_false, hconfig, hrow, hsc,
    stRowValues_noFault, hidx1, hidx2, stCell_noFault, stSetCell_noFault,
    hcell1, hcell2, hcast, printInt_natCast, lt_irrefl]
  rfl

/-- Claim C3 counterexample: `sambo_core.record_consumption` validates only
the *first* character of token 1 (`parts[0][0] not in ['x','y','z']`), so the
mixed token "xy" is accepted with ok=true and recorded as two coffees — the
claim requires ok=false with no store write. -/
theorem claim_C3_counterexample :
    samboRecordConsumption noFault "42" "xy" "2024-01-08" "2024-01-08"
      [["User ID", "Date", "Coffee (x)", "Coffee Cost"]] =
      .ok ((true, "✓ Coffee x2 recorded! Total today: 2"),
        [["User ID", "Date", "Coffee (x)", "Coffee Cost"],
          ["42", "2024-01-08", "2", "0", "0", "0", "0", "0", "2024-01-08",
            ""]]) := by rfl

/-- Claim C3 as amended: `bot.record_consumption` enforces the
all-one-repeated-character rule — a mixed first token fails with a
"Use only 'c' characters" message before any store access, and an empty
input fails in both variants before any store access; for an all-one-letter
token the recorded count equals the token's length in both variants.
`sambo_core.record_consumption`, however, checks only the token's *first*
character, so a mixed token such as "xy" is accepted and recorded with count
equal to its full length (see the counterexample). -/
theorem claim_C3 :
    (∀ (f : Fault) (g : Grid) (u today week text p0 : String)
      (rest : List String),
      pySplit (pyLower (pyStrip text)) = p0 :: rest →
      (p0.data.headD ' ' == 'x' || p0.data.headD ' ' == 'y' ||
        p0.data.headD ' ' == 'z') = true →
      (p0.data.all (fun c => c == p0.data.headD ' ')) = false →
      botRecordConsumption f u text today week g =
        ((false, "Use only \x27" ++ String.mk [p0.data.headD ' '] ++
          "\x27 characters"), g)) ∧
    (∀ (f : Fault) (g : Grid) (u today week text : String),
      pySplit (pyLower (pyStrip text)) = [] →
      samboRecordConsumption f u text today week g =
        .ok ((false, "Invalid format. Use: x, xx, xx 150, y 75, z"), g)) ∧
    (∀ (f : Fault) (g : Grid) (u today week text : String),
      pySplit (pyLower (pyStrip text)) = [] →
      botRecordConsumption f u text today week g =
        ((false, "Invalid format. Use: x, xx, xxx, y, z"), g)) ∧
    (∀ text p0 : String, pySplit (pyLower (pyStrip text)) = [p0] →
      p0.data.headD ' ' = 'x' →
      (p0.data.all (fun c => c == p0.data.headD ' ')) = true →
      botRecordConsumption noFault "42" text "2024-01-08" "2024-01-08"
        consHeader =
        ((true, "✓ Coffee x" ++ printNat p0.length ++ " recorded" ++ "" ++
          "! Total: " ++ printNat p0.length),
          [["User ID", "Date", "Coffee (x)", "Coffee Cost", "Week Number"],
            ["42", "2024-01-08", printNat p0.length, "0", "2024-01-08"]])) ∧
    (∀ text p0 : String, pySplit (pyLower (pyStrip text)) = [p0] →
      p0.data.headD ' ' = 'x' →
      samboRecordConsumption noFault "42" text "2024-01-08" "2024-01-08"
        [["User ID", "Date", "Coffee (x)", "Coffee Cost"]] =
        .ok ((true, "✓ Coffee x" ++ printNat p0.length ++ " recorded" ++ "" ++
          "! Total today: " ++ printNat p0.length),
          [["User ID", "Date", "Coffee (x)", "Coffee Cost"],
            ["42", "2024-01-08", printNat p0.length, "0", "0", "0", "0", "0",
              "2024-01-08", ""]])) := by
  refine ⟨?_, ?_, ?_, ?_, ?_⟩
  · intro f g u today week text p0 rest hsplit hxyz hall
    have hp0ne : (p0 == "") = false := by
      by_cases h : (p0 == "") = true
      · exfalso
        have hp : p0 = "" := beq_iff_eq.mp h
        rw [hp] at hxyz
        exact absurd hxyz (by decide)
      · simpa using h
    have hif1 : (p0 == "" || !(p0.data.headD ' ' == 'x' ||
        p0.data.headD ' ' == 'y' || p0.data.headD ' ' == 'z')) = false := by
      rw [hp0ne, hxyz]
      rfl
    unfold botRecordConsumption botConsBody
    simp only [hsplit, hif1, Bool.false_eq_true, if_false, hall]
    rfl
  · intro f g u today week text hsplit
    unfold samboRecordConsumption
    simp only [hsplit]
  · intro f g u today week text hsplit
    unfold botRecordConsumption botConsBody
    simp only [hsplit]
  · intro text p0 hsplit hhead hall
    exact botConsumption_x_flow text p0 [] hsplit hhead hall (Or.inl rfl)
  · intro text p0 hsplit hhead
    exact samboConsumption_x_flow text p0 hsplit hhead

theorem claim_C3_witness :
    botRecordConsumption noFault "7" "xy" "d" "w" consHeader =
      ((false, "Use only \x27" ++ String.mk ['x'] ++ "\x27 characters"),
        consHeader) ∧
    samboRecordConsumption faultAll "7" "  " "d" "w" consHeader =
      .ok ((false, "Invalid format. Use: x, xx, xx 150, y 75, z"),
        consHeader) ∧
    botRecordConsumption noFault "42" "xxx" "2024-01-08" "2024-01-08"
      consHeader =
      ((true, "✓ Coffee x" ++ printNat ("xxx" : String).length ++
        " recorded" ++ "" ++ "! Total: " ++
        printNat ("xxx" : String).length),
        [["User ID", "Date", "Coffee (x)", "Coffee Cost", "Week Number"],
          ["42", "2024-01-08", printNat ("xxx" : String).length, "0",
            "2024-01-08"]]) :=
  ⟨(claim_C3.1 noFault consHeader "7" "d" "w" "xy" "xy" [] (by rfl)
      (by decide) (by decide)),
    (claim_C3.2.1 faultAll consHeader "7" "d" "w" "  " (by rfl)),
    (claim_C3.2.2.2.1 "xxx" "xxx" (by rfl) (by decide) (by decide))⟩

/-- Claim C4 counterexample: `sambo_core.record_consumption` guards the cost
parse with `parts[1].replace(".", "").isdigit()`, which accepts the
multi-dot token "1.2.3"; `int(float("1.2.3"))` then raises an uncaught
`ValueError`, so an unparseable cost token crashes the whole call instead of
defaulting the cost to 0. -/
theorem claim_C4_counterexample :
    samboRecordConsumption noFault "42" "x 1.2.3" "2024-01-08" "2024-01-08"
      [["User ID", "Date", "Coffee (x)", "Coffee Cost"]] =
      .error (.valueError,
        [["User ID", "Date", "Coffee (x)", "Coffee Cost"]]) := by rfl

/-- Claim C4 as amended: in `bot.record_consumption` a present second token
is parsed with `int(float(...))` (decimals allowed) and a token that fails to
parse defaults the cost to 0 without failing the call.  In
`sambo_core.record_consumption` the guard admits multi-dot tokens such as
"1.2.3" whose conversion raises an uncaught `ValueError`, crashing the call
(see the counterexample). -/
theorem claim_C4 :
    (∀ (text p0 p1 : String) (rest2 : List String),
      pySplit (pyLower (pyStrip text)) = p0 :: p1 :: rest2 →
      p0.data.headD ' ' = 'x' →
      (p0.data.all (fun c => c == p0.data.headD ' ')) = true →
      pyIntFloat p1 = .error .valueError →
      botRecordConsumption noFault "42" text "2024-01-08" "2024-01-08"
        consHeader =
        ((true, "✓ Coffee x" ++ printNat p0.length ++ " recorded" ++ "" ++
          "! Total: " ++ printNat p0.length),
          [["User ID", "Date", "Coffee (x)", "Coffee Cost", "Week Number"],
            ["42", "2024-01-08", printNat p0.length, "0", "2024-01-08"]])) ∧
    (botRecordConsumption noFault "42" "x 150.5" "2024-01-08" "2024-01-08"
      consHeader =
      ((true, "✓ Coffee x1 recorded (150 rub)! Total: 1"),
        [["User ID", "Date", "Coffee (x)", "Coffee Cost", "Week Number"],
          ["42", "2024-01-08", "1", "150", "2024-01-08"]])) := by
  constructor
  · intro text p0 p1 rest2 hsplit hhead hall hpf
    exact botConsumption_x_flow text p0 (p1 :: rest2) hsplit hhead hall
      (Or.inr ⟨p1, rest2, rfl, hpf⟩)
  · rfl

theorem claim_C4_witness :
    botRecordConsumption noFault "42" "x abc" "2024-01-08" "2024-01-08"
      consHeader =
      ((true, "✓ Coffee x" ++ printNat ("x" : String).length ++
        " recorded" ++ "" ++ "! Total: " ++ printNat ("x" : String).length),
        [["User ID", "Date", "Coffee (x)", "Coffee Cost", "Week Number"],
          ["42", "2024-01-08", printNat ("x" : String).length, "0",
            "2024-01-08"]]) :=
  claim_C4.1 "x abc" "x" "abc" [] (by rfl) (by decide) (by decide) (by rfl)
